import Mathlib

/-!
Verification of bank_api: a shallow embedding in Lean 4 of the parts of the
repository that the correctness claims are about, together with theorems
settling the claims.

Conventions of the embedding:
* JSON-like Python values (the inputs of the `model_validate` decoders and
  the contents of `raw` columns) are the inductive type `PyValue`.
* `decimal.Decimal` is `PyDecimal` (sign, digit list, exponent), mirroring
  Python's internal representation; `decStr` is `Decimal.__str__`
  (the to-scientific-string algorithm) and `decParse` the numeric-string
  constructor (finite numerals; special values such as NaN/Infinity and
  underscore separators are outside the model).
* `float` arithmetic on retry delays is modelled exactly over `ℚ`; the
  concrete delays in the claims are dyadic so no rounding is lost.
* Fallible Python code (decoders that `raise`, repository code that can
  propagate a `TypeError`) returns `Except String _`.
* Stateful SQLAlchemy sessions become explicit state passing.  The
  project's sessionmaker (`database.py`) sets `autoflush=False`, so a
  `session.scalar(select(...))` issued during a call sees only the rows
  already in the database — with the in-call mutations of those loaded
  row objects, via the identity map — and never the rows added by
  `session.add` in the same call.  A session is therefore a pair of the
  loaded/committed rows and the pending inserts; `session_scope` commits
  at the end of the call, flushing the pending inserts, where the tables'
  UNIQUE constraints (`transactions.external_id`, `positions.account_id`,
  with SQL semantics: NULL never collides, any non-NULL value — the empty
  string included — at most once) can reject the flush with an
  IntegrityError that rolls the whole call back.  Autoincrement ids are
  assigned in insertion order at flush; the model assigns them at `add`
  time, which is observationally identical since nothing reads a pending
  id before commit.
-/

/-- `decimal.Decimal`: sign, coefficient digits (no leading zeros except a
single 0), decimal exponent — Python's internal triple. -/
structure PyDecimal where
  sign : Bool
  digits : List Nat
  exp : Int
  deriving DecidableEq

/-- `datetime.date`. -/
structure PyDate where
  year : Nat
  month : Nat
  day : Nat
  deriving DecidableEq

/-- A Python/JSON value: the payloads flowing through the decoders and the
`raw` persistence columns.  `decimal` and `date` leaves occur in
python-mode `model_dump` output. -/
inductive PyValue where
  | none
  | bool (b : Bool)
  | int (n : Int)
  | str (s : String)
  | decimal (d : PyDecimal)
  | date (d : PyDate)
  | list (items : List PyValue)
  | dict (entries : List (String × PyValue))

/-- Digit list rendered as a string, e.g. `[1,2,3] ↦ "123"`. -/
def digitsToString (ds : List Nat) : String :=
  String.mk (ds.map (fun d => Char.ofNat (48 + d)))

/-- `decimal.Decimal.__str__` (the spec's to-scientific-string algorithm):
`leftdigits = exp + len(digits)`; fixed-point notation when `exp ≤ 0` and
`leftdigits > -6`, scientific notation with `E%+d` otherwise. -/
def decStr (d : PyDecimal) : String :=
  let n : Int := d.digits.length
  let leftdigits : Int := d.exp + n
  let body : String :=
    if d.exp ≤ 0 ∧ leftdigits > -6 then
      -- dotplace = leftdigits
      if d.exp = 0 then
        digitsToString d.digits
      else if leftdigits ≤ 0 then
        "0." ++ String.mk (List.replicate (-leftdigits).toNat '0') ++ digitsToString d.digits
      else
        digitsToString (d.digits.take leftdigits.toNat) ++ "." ++
          digitsToString (d.digits.drop leftdigits.toNat)
    else
      -- dotplace = 1, exponent part leftdigits - 1
      let head := digitsToString (d.digits.take 1)
      let rest := d.digits.drop 1
      let mant := if rest.isEmpty then head else head ++ "." ++ digitsToString rest
      let e := leftdigits - 1
      mant ++ "E" ++ (if e < 0 then toString e else "+" ++ toString e)
  (if d.sign then "-" else "") ++ body

/-- Numeric value of a digit list, most significant first. -/
def digitsVal (ds : List Nat) : Nat :=
  ds.foldl (fun acc d => 10 * acc + d) 0

/-- Exact rational value of a `Decimal` (also used as the exact model of
`float(Decimal)` coercions). -/
def decToRat (d : PyDecimal) : ℚ :=
  (if d.sign then -1 else 1) * (digitsVal d.digits : ℚ) * (10 : ℚ) ^ d.exp

/-- Is `c` an ASCII digit? -/
def isDigitCh (c : Char) : Bool :=
  48 ≤ c.toNat && c.toNat ≤ 57

/-- Value of an ASCII digit. -/
def digitVal (c : Char) : Nat := c.toNat - 48

/-- Strip leading zeros of a coefficient, keeping a single `0` when the
coefficient is zero (Python stores `str(int(intpart + fracpart))`). -/
def normalizeDigits (ds : List Nat) : List Nat :=
  match ds.dropWhile (fun d => d = 0) with
  | [] => [0]
  | ds' => ds'

/-- Non-empty digit run, as an integer (helper of the exponent parser). -/
def decParseExpNat (ds : List Char) : Option Int :=
  if ds.isEmpty || !(ds.all isDigitCh) then Option.none
  else some ((digitsVal (ds.map digitVal) : Nat) : Int)

/-- Optionally signed digit run after the exponent marker. -/
def decParseExpDigits : List Char → Option Int
  | '+' :: ds => decParseExpNat ds
  | '-' :: ds => (decParseExpNat ds).map (fun n => -n)
  | ds => decParseExpNat ds

/-- Parse the optional exponent suffix of a numeric string: empty, or
`e`/`E` followed by an optionally signed digit run. -/
def decParseExp : List Char → Option Int
  | [] => some 0
  | 'e' :: rest => decParseExpDigits rest
  | 'E' :: rest => decParseExpDigits rest
  | _ => Option.none

/-- The `Decimal(str)` constructor on finite numeric strings:
`[sign] digits [. digits] [(e|E) [sign] digits]` with at least one digit in
the coefficient.  Returns `Option.none` where Python raises
`InvalidOperation`. -/
def decParse (s : String) : Option PyDecimal :=
  let cs := s.data
  let (sign, cs) : Bool × List Char :=
    match cs with
    | '+' :: rest => (false, rest)
    | '-' :: rest => (true, rest)
    | rest => (false, rest)
  let intDs := cs.takeWhile isDigitCh
  let afterInt := cs.dropWhile isDigitCh
  let (fracDs, afterFrac) : List Char × List Char :=
    match afterInt with
    | '.' :: rest => (rest.takeWhile isDigitCh, rest.dropWhile isDigitCh)
    | rest => ([], rest)
  if intDs.isEmpty && fracDs.isEmpty then Option.none
  else
    match decParseExp afterFrac with
    | Option.none => Option.none
    | some e =>
      some { sign := sign
             digits := normalizeDigits ((intDs ++ fracDs).map digitVal)
             exp := e - fracDs.length }

/-- Model of Python `float(str)` for the finite numeric strings the retry
code meets: the exact rational value of the literal.  (`inf`/`nan` and
whitespace-padded forms are outside the model; the dyadic values the claims
exercise are exact in binary floating point.) -/
def parseFloat (s : String) : Option ℚ :=
  (decParse s).map decToRat

/-- Days per month, with leap years (`datetime`'s proleptic Gregorian
calendar). -/
def daysInMonth (year month : Nat) : Nat :=
  if month = 2 then
    if year % 4 = 0 && (year % 100 ≠ 0 || year % 400 = 0) then 29 else 28
  else if month = 4 || month = 6 || month = 9 || month = 11 then 30
  else 31

/-- `datetime.date.fromisoformat` on the `YYYY-MM-DD` form: exactly ten
characters, dashes in places 4 and 7, all else digits, with calendar-valid
ranges.  Returns `Option.none` where Python raises `ValueError`. -/
def parseIsoDate (s : String) : Option PyDate :=
  match s.data with
  | [y1, y2, y3, y4, '-', m1, m2, '-', d1, d2] =>
    if [y1, y2, y3, y4, m1, m2, d1, d2].all isDigitCh then
      let y := digitsVal ([y1, y2, y3, y4].map digitVal)
      let m := digitsVal ([m1, m2].map digitVal)
      let d := digitsVal ([d1, d2].map digitVal)
      if 1 ≤ y && 1 ≤ m && m ≤ 12 && 1 ≤ d && d ≤ daysInMonth y m then
        some { year := y, month := m, day := d }
      else Option.none
    else Option.none
  | _ => Option.none

/-- `date.isoformat()`: zero-padded `YYYY-MM-DD`. -/
def isoDateStr (d : PyDate) : String :=
  let pad (width n : Nat) : String :=
    let s := toString n
    String.mk (List.replicate (width - s.length) '0') ++ s
  pad 4 d.year ++ "-" ++ pad 2 d.month ++ "-" ++ pad 2 d.day

/-- Comma-space separated concatenation. -/
def joinComma (xs : List String) : String :=
  String.intercalate ", " xs

mutual
/-- Python `repr` for the values in the model (container cases of `str`).
String escaping inside `repr` is not modelled. -/
def pyRepr : PyValue → String
  | .none => "None"
  | .bool b => if b then "True" else "False"
  | .int n => toString n
  | .str s => "'" ++ s ++ "'"
  | .decimal d => "Decimal('" ++ decStr d ++ "')"
  | .date d => "datetime.date(" ++ toString d.year ++ ", " ++ toString d.month
      ++ ", " ++ toString d.day ++ ")"
  | .list items => "[" ++ joinComma (pyReprList items) ++ "]"
  | .dict entries => "\x7b" ++ joinComma (pyReprEntries entries) ++ "\x7d"
/-- `repr` of every list element. -/
def pyReprList : List PyValue → List String
  | [] => []
  | v :: vs => pyRepr v :: pyReprList vs

/-- `repr` of every dict entry, as `'key': value`. -/
def pyReprEntries : List (String × PyValue) → List String
  | [] => []
  | (k, v) :: es => ("'" ++ k ++ "': " ++ pyRepr v) :: pyReprEntries es
end

/-- Python `str(value)`. -/
def pyStr (v : PyValue) : String :=
  match v with
  | .str s => s
  | .none => "None"
  | .bool b => if b then "True" else "False"
  | .int n => toString n
  | .decimal d => decStr d
  | .date d => isoDateStr d
  | v => pyRepr v

/-- Python truthiness of a value (`bool(value)`). -/
def pyTruthy (v : PyValue) : Bool :=
  match v with
  | .none => false
  | .bool b => b
  | .int n => n ≠ 0
  | .str s => s ≠ ""
  | .decimal d => digitsVal d.digits ≠ 0
  | .date _ => true
  | .list items => !items.isEmpty
  | .dict entries => !entries.isEmpty

/-- Truthiness of an `Optional[str]` field: `None` and `""` are falsy. -/
def pyTruthyStr : Option String → Bool
  | Option.none => false
  | some s => s ≠ ""

/-- Python `a or b` on `Optional[str]` operands. -/
def pyOr (a b : Option String) : Option String :=
  if pyTruthyStr a then a else b

/-- `value.get(key)` on a decoded JSON object: the entry's value, or
Python `None` when the key is absent. -/
def getKey (entries : List (String × PyValue)) (k : String) : PyValue :=
  match entries.find? (fun e => e.1 == k) with
  | some e => e.2
  | Option.none => PyValue.none

/-! ## models/common.py — shared dataclasses and their decoders

Each `model_validate` takes a decoded JSON value (`PyValue`) and returns
`Except String _`, with `.error` where the Python code raises.  The
`isinstance(value, cls)` fast path of the source cannot receive a JSON
value and is therefore not represented: the embedding covers exactly the
decoded-JSON inputs.  `model_dump` is `dataclasses.asdict` followed by
`_convert_for_mode`; the `include`/`exclude`/`exclude_none` options are
not used on the code paths under verification and are not modelled. -/

/-- The `mode` argument of `model_dump`. -/
inductive DumpMode where
  | python
  | json
  deriving DecidableEq

mutual
/-- `_convert_for_mode`: recursively converts `Decimal` and date values to
strings in json mode; the identity in python mode (the model has no tuples
or sets). -/
def _convert_for_mode (mode : DumpMode) : PyValue → PyValue
  | .dict es => .dict (_convert_entries mode es)
  | .list xs => .list (_convert_items mode xs)
  | .decimal d => match mode with
    | .json => .str (decStr d)
    | .python => .decimal d
  | .date d => match mode with
    | .json => .str (isoDateStr d)
    | .python => .date d
  | v => v
/-- `_convert_for_mode` over dict entries. -/
def _convert_entries (mode : DumpMode) : List (String × PyValue) → List (String × PyValue)
  | [] => []
  | (k, v) :: es => (k, _convert_for_mode mode v) :: _convert_entries mode es
/-- `_convert_for_mode` over list items. -/
def _convert_items (mode : DumpMode) : List PyValue → List PyValue
  | [] => []
  | v :: vs => _convert_for_mode mode v :: _convert_items mode vs
end

/-- `_coerce_decimal`: `None` passes through, anything else goes through
`Decimal(str(value))`, raising `InvalidOperation` on non-numeric text. -/
def _coerce_decimal (v : PyValue) : Except String (Option PyDecimal) :=
  match v with
  | .none => .ok Option.none
  | v =>
    match decParse (pyStr v) with
    | some d => .ok (some d)
    | Option.none => .error "InvalidOperation: invalid decimal literal"

/-- `_coerce_optional_str`: `None` passes through, anything else becomes
`str(value)`. -/
def _coerce_optional_str (v : PyValue) : Option String :=
  match v with
  | .none => Option.none
  | v => some (pyStr v)

/-- An `Optional[str]` field as a python-mode dump value. -/
def optStrV : Option String → PyValue
  | Option.none => .none
  | some s => .str s

/-- An `Optional[Decimal]` field as a python-mode dump value. -/
def optDecV : Option PyDecimal → PyValue
  | Option.none => .none
  | some d => .decimal d

/-- An `Optional[date]` field as a python-mode dump value. -/
def optDateV : Option PyDate → PyValue
  | Option.none => .none
  | some d => .date d

/-- `AmountValue`: an amount with a currency unit. -/
structure AmountValue where
  value : Option PyDecimal := Option.none
  unit : Option String := Option.none
  deriving DecidableEq

/-- `AmountValue.model_validate`. -/
def AmountValue.model_validate (value : PyValue) : Except String (Option AmountValue) :=
  match value with
  | .none => .ok Option.none
  | .dict es => do
    let d ← _coerce_decimal (getKey es "value")
    .ok (some { value := d, unit := _coerce_optional_str (getKey es "unit") })
  | v => .error ("TypeError: Cannot convert " ++ pyRepr v ++ " to AmountValue")

/-- `dataclasses.asdict` on an `AmountValue`. -/
def AmountValue.asdictV (a : AmountValue) : PyValue :=
  .dict [("value", optDecV a.value), ("unit", optStrV a.unit)]

/-- `AmountValue.model_dump(mode=...)`. -/
def AmountValue.model_dump (a : AmountValue) (mode : DumpMode) : PyValue :=
  _convert_for_mode mode a.asdictV

/-- `CurrencyString`: ISO-4217 currency code wrapper. -/
structure CurrencyString where
  currency : Option String := Option.none
  deriving DecidableEq

/-- `CurrencyString.model_validate` — note the final catch-all branch
coerces any non-`None`, non-dict value to a string instead of raising. -/
def CurrencyString.model_validate (value : PyValue) : Except String (Option CurrencyString) :=
  match value with
  | .none => .ok Option.none
  | .dict es => .ok (some { currency := _coerce_optional_str (getKey es "currency") })
  | v => .ok (some { currency := _coerce_optional_str v })

/-- `dataclasses.asdict` on a `CurrencyString`. -/
def CurrencyString.asdictV (c : CurrencyString) : PyValue :=
  .dict [("currency", optStrV c.currency)]

/-- `EnumText`: key/text pair. -/
structure EnumText where
  key : Option String := Option.none
  text : Option String := Option.none
  deriving DecidableEq

/-- `EnumText.model_validate`. -/
def EnumText.model_validate (value : PyValue) : Except String (Option EnumText) :=
  match value with
  | .none => .ok Option.none
  | .dict es => .ok (some { key := _coerce_optional_str (getKey es "key")
                            text := _coerce_optional_str (getKey es "text") })
  | v => .error ("TypeError: Cannot convert " ++ pyRepr v ++ " to EnumText")

/-- `dataclasses.asdict` on an `EnumText`. -/
def EnumText.asdictV (e : EnumText) : PyValue :=
  .dict [("key", optStrV e.key), ("text", optStrV e.text)]

/-- `DateString`: date without time information. -/
structure DateString where
  date : Option PyDate := Option.none
  deriving DecidableEq

/-- `DateString.model_validate`: `None` passes through; a dict contributes
its `"date"` entry and any other value stands for itself; a
`datetime.date` value is taken as is, anything else goes through
`date.fromisoformat(str(raw_value))` — so a dict whose `"date"` entry is
absent or `None` reaches `fromisoformat("None")` and raises. -/
def DateString.model_validate (value : PyValue) : Except String (Option DateString) :=
  match value with
  | .none => .ok Option.none
  | value =>
    let raw_value := match value with
      | .dict es => getKey es "date"
      | v => v
    match raw_value with
    | .date d => .ok (some { date := some d })
    | rv =>
      match parseIsoDate (pyStr rv) with
      | some d => .ok (some { date := some d })
      | Option.none => .error ("ValueError: Invalid isoformat string: " ++ pyStr rv)

/-- `dataclasses.asdict` on a `DateString`. -/
def DateString.asdictV (ds : DateString) : PyValue :=
  .dict [("date", optDateV ds.date)]

/-- `PagingInfo`: paging metadata; its two fields are stored exactly as
found in the payload (no coercion in the source). -/
structure PagingInfo where
  index : PyValue := .none
  «matches» : PyValue := .none

/-- `PagingInfo.model_validate`. -/
def PagingInfo.model_validate (value : PyValue) : Except String (Option PagingInfo) :=
  match value with
  | .none => .ok Option.none
  | .dict es => .ok (some { index := getKey es "index", «matches» := getKey es "matches" })
  | v => .error ("TypeError: Cannot convert " ++ pyRepr v ++ " to PagingInfo")

/-- `AggregatedInfo`: free-form metadata bag. -/
structure AggregatedInfo where
  data : List (String × PyValue) := []

/-- `AggregatedInfo.model_validate`: `None` becomes an empty instance
(`value or cls()`); a dict with a dict-valued `"data"` entry unwraps it,
any other dict is taken whole. -/
def AggregatedInfo.model_validate (value : PyValue) : Except String (Option AggregatedInfo) :=
  match value with
  | .none => .ok (some { data := [] })
  | .dict es =>
    match es.find? (fun e => e.1 == "data") with
    | some (_, .dict d) => .ok (some { data := d })
    | _ => .ok (some { data := es })
  | v => .error ("TypeError: Cannot convert " ++ pyRepr v ++ " to AggregatedInfo")

/-- `AccountInformation`: information about an account owner. -/
structure AccountInformation where
  holderName : Option String := Option.none
  iban : Option String := Option.none
  bic : Option String := Option.none
  deriving DecidableEq

/-- `AccountInformation.model_validate`. -/
def AccountInformation.model_validate (value : PyValue) :
    Except String (Option AccountInformation) :=
  match value with
  | .none => .ok Option.none
  | .dict es => .ok (some { holderName := _coerce_optional_str (getKey es "holderName")
                            iban := _coerce_optional_str (getKey es "iban")
                            bic := _coerce_optional_str (getKey es "bic") })
  | v => .error ("TypeError: Cannot convert " ++ pyRepr v ++ " to AccountInformation")

/-- `dataclasses.asdict` on an `AccountInformation`. -/
def AccountInformation.asdictV (a : AccountInformation) : PyValue :=
  .dict [("holderName", optStrV a.holderName), ("iban", optStrV a.iban),
         ("bic", optStrV a.bic)]

/-! ## models/banking.py — banking dataclasses -/

/-- `Account`: master data of an account. -/
structure Account where
  accountId : Option String := Option.none
  accountDisplayId : Option String := Option.none
  currency : Option CurrencyString := Option.none
  clientId : Option String := Option.none
  accountType : Option EnumText := Option.none
  iban : Option String := Option.none
  creditLimit : Option AmountValue := Option.none
  deriving DecidableEq

/-- `Account.model_validate`. -/
def Account.model_validate (value : PyValue) : Except String (Option Account) :=
  match value with
  | .none => .ok Option.none
  | .dict es => do
    let currency ← CurrencyString.model_validate (getKey es "currency")
    let accountType ← EnumText.model_validate (getKey es "accountType")
    let creditLimit ← AmountValue.model_validate (getKey es "creditLimit")
    .ok (some { accountId := _coerce_optional_str (getKey es "accountId")
                accountDisplayId := _coerce_optional_str (getKey es "accountDisplayId")
                currency := currency
                clientId := _coerce_optional_str (getKey es "clientId")
                accountType := accountType
                iban := _coerce_optional_str (getKey es "iban")
                creditLimit := creditLimit })
  | v => .error ("TypeError: Cannot convert " ++ pyRepr v ++ " to Account")

/-- `dataclasses.asdict` on an `Account`. -/
def Account.asdictV (a : Account) : PyValue :=
  .dict [("accountId", optStrV a.accountId),
         ("accountDisplayId", optStrV a.accountDisplayId),
         ("currency", match a.currency with
           | some c => c.asdictV
           | Option.none => .none),
         ("clientId", optStrV a.clientId),
         ("accountType", match a.accountType with
           | some e => e.asdictV
           | Option.none => .none),
         ("iban", optStrV a.iban),
         ("creditLimit", match a.creditLimit with
           | some v => v.asdictV
           | Option.none => .none)]

/-- `AccountBalance`: account information including cash balance. -/
structure AccountBalance where
  account : Option Account := Option.none
  accountId : Option String := Option.none
  balance : Option AmountValue := Option.none
  balanceEUR : Option AmountValue := Option.none
  availableCashAmount : Option AmountValue := Option.none
  availableCashAmountEUR : Option AmountValue := Option.none
  deriving DecidableEq

/-- `AccountBalance.model_validate` — no `None` branch in the source: a
`None` input falls through to the `TypeError`. -/
def AccountBalance.model_validate (value : PyValue) : Except String AccountBalance :=
  match value with
  | .dict es => do
    let account ← Account.model_validate (getKey es "account")
    let balance ← AmountValue.model_validate (getKey es "balance")
    let balanceEUR ← AmountValue.model_validate (getKey es "balanceEUR")
    let availableCashAmount ← AmountValue.model_validate (getKey es "availableCashAmount")
    let availableCashAmountEUR ← AmountValue.model_validate (getKey es "availableCashAmountEUR")
    .ok { account := account
          accountId := _coerce_optional_str (getKey es "accountId")
          balance := balance
          balanceEUR := balanceEUR
          availableCashAmount := availableCashAmount
          availableCashAmountEUR := availableCashAmountEUR }
  | v => .error ("TypeError: Cannot convert " ++ pyRepr v ++ " to AccountBalance")

/-- `dataclasses.asdict` on an `AccountBalance`. -/
def AccountBalance.asdictV (b : AccountBalance) : PyValue :=
  .dict [("account", match b.account with
           | some a => a.asdictV
           | Option.none => .none),
         ("accountId", optStrV b.accountId),
         ("balance", match b.balance with
           | some v => v.asdictV
           | Option.none => .none),
         ("balanceEUR", match b.balanceEUR with
           | some v => v.asdictV
           | Option.none => .none),
         ("availableCashAmount", match b.availableCashAmount with
           | some v => v.asdictV
           | Option.none => .none),
         ("availableCashAmountEUR", match b.availableCashAmountEUR with
           | some v => v.asdictV
           | Option.none => .none)]

/-- `AccountBalance.model_dump(mode=...)`. -/
def AccountBalance.model_dump (b : AccountBalance) (mode : DumpMode) : PyValue :=
  _convert_for_mode mode b.asdictV

/-- `AccountTransaction`: one account transaction.  `newTransaction` is
stored exactly as found in the payload (no coercion in the source). -/
structure AccountTransaction where
  reference : Option String := Option.none
  bookingStatus : Option String := Option.none
  bookingDate : Option DateString := Option.none
  amount : Option AmountValue := Option.none
  remitter : Option AccountInformation := Option.none
  deptor : Option AccountInformation := Option.none
  creditor : Option AccountInformation := Option.none
  valutaDate : Option String := Option.none
  directDebitCreditorId : Option String := Option.none
  directDebitMandateId : Option String := Option.none
  endToEndReference : Option String := Option.none
  newTransaction : PyValue := .none
  remittanceInfo : Option String := Option.none
  transactionType : Option EnumText := Option.none

/-- `AccountTransaction.model_validate` — no `None` branch in the source. -/
def AccountTransaction.model_validate (value : PyValue) : Except String AccountTransaction :=
  match value with
  | .dict es => do
    let bookingDate ← DateString.model_validate (getKey es "bookingDate")
    let amount ← AmountValue.model_validate (getKey es "amount")
    let remitter ← AccountInformation.model_validate (getKey es "remitter")
    let deptor ← AccountInformation.model_validate (getKey es "deptor")
    let creditor ← AccountInformation.model_validate (getKey es "creditor")
    let transactionType ← EnumText.model_validate (getKey es "transactionType")
    .ok { reference := _coerce_optional_str (getKey es "reference")
          bookingStatus := _coerce_optional_str (getKey es "bookingStatus")
          bookingDate := bookingDate
          amount := amount
          remitter := remitter
          deptor := deptor
          creditor := creditor
          valutaDate := _coerce_optional_str (getKey es "valutaDate")
          directDebitCreditorId := _coerce_optional_str (getKey es "directDebitCreditorId")
          directDebitMandateId := _coerce_optional_str (getKey es "directDebitMandateId")
          endToEndReference := _coerce_optional_str (getKey es "endToEndReference")
          newTransaction := getKey es "newTransaction"
          remittanceInfo := _coerce_optional_str (getKey es "remittanceInfo")
          transactionType := transactionType }
  | v => .error ("TypeError: Cannot convert " ++ pyRepr v ++ " to AccountTransaction")

/-- `dataclasses.asdict` on an `AccountTransaction`. -/
def AccountTransaction.asdictV (t : AccountTransaction) : PyValue :=
  .dict [("reference", optStrV t.reference),
         ("bookingStatus", optStrV t.bookingStatus),
         ("bookingDate", match t.bookingDate with
           | some ds => ds.asdictV
           | Option.none => .none),
         ("amount", match t.amount with
           | some a => a.asdictV
           | Option.none => .none),
         ("remitter", match t.remitter with
           | some a => a.asdictV
           | Option.none => .none),
         ("deptor", match t.deptor with
           | some a => a.asdictV
           | Option.none => .none),
         ("creditor", match t.creditor with
           | some a => a.asdictV
           | Option.none => .none),
         ("valutaDate", optStrV t.valutaDate),
         ("directDebitCreditorId", optStrV t.directDebitCreditorId),
         ("directDebitMandateId", optStrV t.directDebitMandateId),
         ("endToEndReference", optStrV t.endToEndReference),
         ("newTransaction", t.newTransaction),
         ("remittanceInfo", optStrV t.remittanceInfo),
         ("transactionType", match t.transactionType with
           | some e => e.asdictV
           | Option.none => .none)]

/-- `AccountTransaction.model_dump(mode=...)`. -/
def AccountTransaction.model_dump (t : AccountTransaction) (mode : DumpMode) : PyValue :=
  _convert_for_mode mode t.asdictV

/-- `ListResourceAccountBalance`: list wrapper for balances. -/
structure ListResourceAccountBalance where
  paging : Option PagingInfo := Option.none
  aggregated : Option AggregatedInfo := Option.none
  values : List AccountBalance := []

/-- `ListResourceAccountTransaction`: list wrapper for transactions. -/
structure ListResourceAccountTransaction where
  paging : Option PagingInfo := Option.none
  aggregated : Option AggregatedInfo := Option.none
  values : List AccountTransaction := []

/-! ## client/base.py — retry-governed request executor

One HTTP attempt is summarised by `HttpResponse`: the status code, the
`Retry-After` header (if any), and the body both as parsed JSON
(`Option`, where `Option.none` models `response.json()` raising
`ValueError`) and as raw text.  A scripted session is a function from the
0-based attempt index to the response of that attempt, so every bounded
attempt sequence is covered.  Wall-clock sleeping becomes the returned
trace of delays. -/

/-- `RetryConfig` with the source's defaults. -/
structure RetryConfig where
  max_attempts : Nat := 3
  backoff_factor : ℚ := 1 / 2
  status_forcelist : List Nat := [429, 500, 502, 503, 504]

/-- One attempt's outcome, as the client observes it. -/
structure HttpResponse where
  status_code : Nat
  retry_after : Option String := Option.none
  json_body : Option PyValue := Option.none
  text : String := ""

/-- `Response.ok`: the 200–399 range counts as success.  (This is how the
repository's own test double defines `ok`; `requests` additionally treats
the informational 1xx codes — which its transport never surfaces as a
final response — as `ok`.) -/
def responseOk (r : HttpResponse) : Bool :=
  200 ≤ r.status_code && r.status_code < 400

/-- `BaseComdirectClient._should_retry`. -/
def _should_retry (cfg : RetryConfig) (r : HttpResponse) : Bool :=
  cfg.status_forcelist.contains r.status_code

/-- `BaseComdirectClient._calculate_delay` for the (1-based) attempt that
just failed: a 429 with a `Retry-After` header that parses as a number
yields that number of seconds; everything else falls back to
`backoff_factor * 2 ** (attempt - 1)`. -/
def _calculate_delay (cfg : RetryConfig) (r : HttpResponse) (attempt : Nat) : ℚ :=
  match (if r.status_code = 429 then r.retry_after else Option.none) with
  | some ra =>
    match parseFloat ra with
    | some q => q
    | Option.none => cfg.backoff_factor * (2 : ℚ) ^ (attempt - 1)
  | Option.none => cfg.backoff_factor * (2 : ℚ) ^ (attempt - 1)

/-- The error payload attached to a `ComdirectAPIError`: the body parsed
as JSON when `response.json()` succeeds, the raw text otherwise. -/
inductive ErrorPayload where
  | json (v : PyValue)
  | text (s : String)

/-- `ComdirectAPIError` as raised by `_build_error`. -/
structure ComdirectAPIError where
  message : String
  status_code : Nat
  response : ErrorPayload

/-- `BaseComdirectClient._build_error`. -/
def _build_error (r : HttpResponse) : ComdirectAPIError :=
  { message := "HTTP " ++ toString r.status_code ++ " error calling comdirect API"
    status_code := r.status_code
    response := match r.json_body with
      | some j => .json j
      | Option.none => .text r.text }

/-- The retry loop of `_request`.  `attempt` is the Python attempt counter
after its increment (1-based, indexing `script` at `attempt - 1`);
`remaining = max_attempts - attempt` counts how many further attempts the
`attempt == max_attempts` break still allows.  The loop breaks — issuing
no further sleep — when the response is not retryable or the attempts are
exhausted; otherwise it sleeps `_calculate_delay` and re-issues. -/
def requestLoop (cfg : RetryConfig) (script : Nat → HttpResponse) :
    Nat → Nat → List ℚ × HttpResponse
  | attempt, 0 => ([], script (attempt - 1))
  | attempt, remaining + 1 =>
    let r := script (attempt - 1)
    if _should_retry cfg r then
      let next := requestLoop cfg script (attempt + 1) remaining
      (_calculate_delay cfg r attempt :: next.1, next.2)
    else ([], r)

/-- `BaseComdirectClient._request` on a scripted session (`max_attempts ≥ 1`;
with zero attempts the source trips its own `assert`).  Returns the trace
of sleeps and either the final response or the built error. -/
def _request (cfg : RetryConfig) (script : Nat → HttpResponse) :
    List ℚ × Except ComdirectAPIError HttpResponse :=
  let out := requestLoop cfg script 1 (cfg.max_attempts - 1)
  (out.1, if responseOk out.2 then .ok out.2 else .error (_build_error out.2))

/-! ## persistence/repositories.py — upsert repositories

The database is an explicit store: the committed rows plus the
autoincrement counter.  A call runs in a session (committed rows seen by
the lookups, pending inserts invisible to them) and ends in the
`session_scope` commit, which flushes the pending inserts against the
UNIQUE constraints.  `datetime.utcnow()` is an explicit `now` parameter. -/

/-- Replace the first element satisfying `p` by its image under `f` —
the effect of mutating the row returned by `session.scalar(select(...))`. -/
def replaceFirst (p : α → Bool) (f : α → α) : List α → List α
  | [] => []
  | a :: as => if p a then f a :: as else a :: replaceFirst p f as

/-- A row of the `transactions` table. -/
structure TransactionRow where
  id : Nat
  external_id : Option String
  account_id : Option String
  booking_date : Option PyDate
  amount : Option ℚ
  currency : Option String
  raw : PyValue
  created_at : Nat
  updated_at : Nat

/-- The `transactions` table plus its autoincrement counter. -/
structure TxStore where
  rows : List TransactionRow := []
  nextId : Nat := 1

/-- `repositories._parse_date` on the `Optional[DateString]` values the
repository receives: `None` (the only falsy such value — a dataclass
instance is always truthy) maps to `None`; a `DateString` hits the
`isinstance` branch and `datetime.combine(date_value.date, ...)`, which
raises a `TypeError` when the wrapped date is `None`.  The time component
added by `combine` is dropped; the stored date is kept. -/
def _parse_date (date_value : Option DateString) : Except String (Option PyDate) :=
  match date_value with
  | Option.none => .ok Option.none
  | some ds =>
    match ds.date with
    | some d => .ok (some d)
    | Option.none => .error "TypeError: combine() argument 1 must be datetime.date, not None"

/-- The derived `external_id` of a transaction:
`transaction.reference or transaction.endToEndReference`. -/
def transactionExternalId (transaction : AccountTransaction) : Option String :=
  pyOr transaction.reference transaction.endToEndReference

/-- The derived `amount_value` of a transaction:
`float(amount.value)` when the amount and its value are present. -/
def transactionAmountValue (transaction : AccountTransaction) : Option ℚ :=
  match transaction.amount with
  | some amount =>
    match amount.value with
    | some d => some (decToRat d)
    | Option.none => Option.none
  | Option.none => Option.none

/-- The derived `currency` of a transaction:
`amount.unit if amount and amount.unit else None`. -/
def transactionCurrency (transaction : AccountTransaction) : Option String :=
  match transaction.amount with
  | some amount => if pyTruthyStr amount.unit then amount.unit else Option.none
  | Option.none => Option.none

/-- An open session over the `transactions` table, as `autoflush=False`
(`database.py`) leaves it during one repository call: `rows` are the
loaded/committed rows — carrying the in-call mutations of the loaded
objects, which the identity map makes visible to later lookups; the match
column `external_id` is never mutated, so the match sets are unaffected —
and `pending` are the rows added by `session.add` and not yet flushed,
invisible to `session.scalar(select(...))`. -/
structure TxSession where
  rows : List TransactionRow
  pending : List TransactionRow
  nextId : Nat

/-- The body of `TransactionRepository.upsert_transactions` for one
transaction: derive `external_id` (`reference or endToEndReference`), look
up an existing row only when the id is truthy — with `autoflush=False` the
SELECT sees the committed rows only, never this call's pending inserts —
derive amount and currency, then update the found row in place or add a
fresh pending row.  Note that a record with no derivable id also reaches
the `else` branch and is inserted with `external_id=None`. -/
def upsertOneTransaction (account_id : String) (now : Nat) (sess : TxSession)
    (transaction : AccountTransaction) : Except String TxSession :=
  let external_id := transactionExternalId transaction
  let existing : Option TransactionRow :=
    if pyTruthyStr external_id then
      sess.rows.find? (fun r => r.external_id == external_id)
    else Option.none
  let amount_value : Option ℚ := transactionAmountValue transaction
  let currency : Option String := transactionCurrency transaction
  match _parse_date transaction.bookingDate with
  | .error e => .error e
  | .ok booking_date =>
    match existing with
    | some _ =>
      let updatedRows := replaceFirst (fun r => r.external_id == external_id)
        (fun r => { r with raw := transaction.model_dump .python
                           amount := amount_value
                           currency := currency
                           booking_date := booking_date
                           updated_at := now }) sess.rows
      .ok { sess with rows := updatedRows }
    | Option.none =>
      .ok { rows := sess.rows
            pending := sess.pending ++ [{ id := sess.nextId
                                          external_id := external_id
                                          account_id := some account_id
                                          booking_date := booking_date
                                          amount := amount_value
                                          currency := currency
                                          raw := transaction.model_dump .python
                                          created_at := now
                                          updated_at := now }]
            nextId := sess.nextId + 1 }

/-- Does flushing the pending inserts violate the
`uq_transactions_external_id` UNIQUE constraint?  SQL semantics: a NULL
`external_id` never collides, while any non-NULL value — the empty string
included — may occur at most once across the table rows and the flushed
inserts.  (Updates never modify `external_id`, so only inserts can
violate.) -/
def txFlushViolation (rows pending : List TransactionRow) : Bool :=
  pending.any (fun r =>
    r.external_id.isSome
      && decide (2 ≤ (rows ++ pending).countP (fun r2 => r2.external_id == r.external_id)))

/-- The commit issued by `session_scope` for the transactions table: flush
the pending inserts, failing with an `IntegrityError` — which makes
`session_scope` roll the whole call back, leaving the store unchanged —
when the unique constraint is violated. -/
def txCommit (sess : TxSession) : Except String TxStore :=
  if txFlushViolation sess.rows sess.pending then
    .error "IntegrityError: UNIQUE constraint failed: transactions.external_id"
  else .ok { rows := sess.rows ++ sess.pending, nextId := sess.nextId }

/-- `TransactionRepository.upsert_transactions` as run inside
`session_scope` over store `s`: the per-record body folded over the batch
in a fresh session (a raised `TypeError` aborts the call before commit),
then the commit.  Every `.error` outcome leaves the store unchanged — the
surrounding `session_scope` rolls the transaction back. -/
def upsert_transactions (transactions : List AccountTransaction) (account_id : String)
    (now : Nat) (s : TxStore) : Except String TxStore :=
  match transactions.foldlM (fun sess t => upsertOneTransaction account_id now sess t)
      (TxSession.mk s.rows [] s.nextId) with
  | .error e => .error e
  | .ok sess => txCommit sess

/-- `TransactionRepository.list_transactions`. -/
def list_transactions (account_id : String) (s : TxStore) : List TransactionRow :=
  s.rows.filter (fun r => r.account_id == some account_id)

/-- A row of the `positions` table. -/
structure PositionRow where
  id : Nat
  account_id : Option String
  balance_amount : Option ℚ
  currency : Option String
  raw : PyValue
  updated_at : Nat

/-- The `positions` table plus its autoincrement counter. -/
structure PosStore where
  rows : List PositionRow := []
  nextId : Nat := 1

/-- `repositories._extract_amount`. -/
def _extract_amount (balance : AccountBalance) : Option ℚ :=
  match balance.balance with
  | some b =>
    match b.value with
    | some d => some (decToRat d)
    | Option.none =>
      match balance.availableCashAmount with
      | some a =>
        match a.value with
        | some d => some (decToRat d)
        | Option.none => Option.none
      | Option.none => Option.none
  | Option.none =>
    match balance.availableCashAmount with
    | some a =>
      match a.value with
      | some d => some (decToRat d)
      | Option.none => Option.none
    | Option.none => Option.none

/-- `repositories._extract_currency`. -/
def _extract_currency (balance : AccountBalance) : Option String :=
  match balance.balance with
  | some b =>
    if pyTruthyStr b.unit then b.unit
    else
      match balance.availableCashAmount with
      | some a => if pyTruthyStr a.unit then a.unit else Option.none
      | Option.none => Option.none
  | Option.none =>
    match balance.availableCashAmount with
    | some a => if pyTruthyStr a.unit then a.unit else Option.none
    | Option.none => Option.none

/-- The natural-key expression of `PositionRepository.upsert_balances`,

`balance.accountId or balance.account.accountId if balance.account else None`,

which Python parses as
`(balance.accountId or balance.account.accountId) if balance.account else None`:
whenever the nested `account` record is `None` the whole expression is
`None`, even if the top-level `accountId` is present. -/
def balanceNaturalKey (balance : AccountBalance) : Option String :=
  match balance.account with
  | some account => pyOr balance.accountId account.accountId
  | Option.none => Option.none

/-- An open session over the `positions` table (the same `autoflush=False`
semantics as `TxSession`). -/
structure PosSession where
  rows : List PositionRow
  pending : List PositionRow
  nextId : Nat

/-- The body of `PositionRepository.upsert_balances` for one balance:
derive the natural key, skip the record when the key is falsy, otherwise
update the row found by `account_id` in place — the SELECT sees committed
rows only — or add a fresh pending row. -/
def upsertOneBalance (now : Nat) (sess : PosSession) (balance : AccountBalance) : PosSession :=
  let account_id := balanceNaturalKey balance
  if pyTruthyStr account_id then
    match sess.rows.find? (fun r => r.account_id == account_id) with
    | some _ =>
      let updatedRows := replaceFirst (fun r => r.account_id == account_id)
        (fun r => { r with balance_amount := _extract_amount balance
                           currency := _extract_currency balance
                           raw := balance.model_dump .python
                           updated_at := now }) sess.rows
      { sess with rows := updatedRows }
    | Option.none =>
      { rows := sess.rows
        pending := sess.pending ++ [{ id := sess.nextId
                                      account_id := account_id
                                      balance_amount := _extract_amount balance
                                      currency := _extract_currency balance
                                      raw := balance.model_dump .python
                                      updated_at := now }]
        nextId := sess.nextId + 1 }
  else sess

/-- Does flushing the pending position inserts violate the
`uq_positions_account_id` UNIQUE constraint?  Same SQL semantics as
`txFlushViolation`. -/
def posFlushViolation (rows pending : List PositionRow) : Bool :=
  pending.any (fun r =>
    r.account_id.isSome
      && decide (2 ≤ (rows ++ pending).countP (fun r2 => r2.account_id == r.account_id)))

/-- The commit issued by `session_scope` for the positions table. -/
def posCommit (sess : PosSession) : Except String PosStore :=
  if posFlushViolation sess.rows sess.pending then
    .error "IntegrityError: UNIQUE constraint failed: positions.account_id"
  else .ok { rows := sess.rows ++ sess.pending, nextId := sess.nextId }

/-- `PositionRepository.upsert_balances` as run inside `session_scope`
over store `s`: the loop in a fresh session, then the commit. -/
def upsert_balances (balances : List AccountBalance) (now : Nat) (s : PosStore) :
    Except String PosStore :=
  posCommit (balances.foldl (upsertOneBalance now) (PosSession.mk s.rows [] s.nextId))

/-- `PositionRepository.list_positions`. -/
def list_positions (s : PosStore) : List PositionRow :=
  s.rows

/-! ## services/accounts.py, services/transactions.py and the API routers

The HTTP client behind a service is abstracted as the `ListResource`
response the scripted upstream would produce for this call; invoking a
`refresh_*` service method is the only network activity, so the routers
below also return how many times it ran. -/

/-- `AccountService.refresh_account_balances`: fetch (the scripted
response), persist via the position repository, return the response. -/
def refresh_account_balances (response : ListResourceAccountBalance) (now : Nat)
    (s : PosStore) : Except String (ListResourceAccountBalance × PosStore) :=
  match upsert_balances response.values now s with
  | .error e => .error e
  | .ok s' => .ok (response, s')

/-- `AccountService.list_cached_balances`: re-validate the `raw` payload of
every position row whose `raw` is truthy. -/
def list_cached_balances (s : PosStore) : Except String (List AccountBalance) :=
  (s.rows.filter (fun p => pyTruthy p.raw)).mapM (fun p => AccountBalance.model_validate p.raw)

/-- `TransactionService.refresh_transactions`. -/
def refresh_transactions (response : ListResourceAccountTransaction) (account_id : String)
    (now : Nat) (s : TxStore) : Except String (ListResourceAccountTransaction × TxStore) :=
  match upsert_transactions response.values account_id now s with
  | .error e => .error e
  | .ok s' => .ok (response, s')

/-- `TransactionService.list_cached_transactions`: the truthy `raw`
payloads of the account's rows. -/
def list_cached_transactions (account_id : String) (s : TxStore) : List PyValue :=
  ((list_transactions account_id s).filter (fun t => pyTruthy t.raw)).map (fun t => t.raw)

/-- `api/schemas.BalanceSummary`. -/
structure BalanceSummary where
  account_id : Option String
  amount : Option ℚ
  currency : Option String

/-- `routers/accounts._derive_amount`: the balance amount/unit, falling
back to the available cash amount, as (float, unit). -/
def _derive_amount (balance : AccountBalance) : Option ℚ × Option String :=
  match balance.balance with
  | some b =>
    match b.value with
    | some d => (some (decToRat d), b.unit)
    | Option.none =>
      match balance.availableCashAmount with
      | some a =>
        match a.value with
        | some d => (some (decToRat d), a.unit)
        | Option.none => (Option.none, Option.none)
      | Option.none => (Option.none, Option.none)
  | Option.none =>
    match balance.availableCashAmount with
    | some a =>
      match a.value with
      | some d => (some (decToRat d), a.unit)
      | Option.none => (Option.none, Option.none)
    | Option.none => (Option.none, Option.none)

/-- `routers/accounts._to_summary`: primary `accountId` first, nested
`account.accountId` only when the primary is falsy. -/
def _to_summary (balance : AccountBalance) : BalanceSummary :=
  let (amount, currency) := _derive_amount balance
  let account_id :=
    if !pyTruthyStr balance.accountId then
      match balance.account with
      | some account => account.accountId
      | Option.none => balance.accountId
    else balance.accountId
  { account_id := account_id, amount := amount, currency := currency }

/-- `GET /accounts/.../balances` (`routers/accounts.list_balances`) with
its `refresh` query flag: forced refresh, or cached-with-fill-on-miss.
Returns the summaries, the `refreshed` flag, the number of service
refreshes performed (network calls), and the resulting store. -/
def route_list_balances (refresh : Bool) (store : PosStore)
    (fetched : ListResourceAccountBalance) (now : Nat) :
    Except String (List BalanceSummary × Bool × Nat × PosStore) :=
  if refresh then
    match refresh_account_balances fetched now store with
    | .error e => .error e
    | .ok (response, s') => .ok (response.values.map _to_summary, true, 1, s')
  else
    match list_cached_balances store with
    | .error e => .error e
    | .ok balances =>
      if balances.isEmpty then
        match refresh_account_balances fetched now store with
        | .error e => .error e
        | .ok (response, s') => .ok (response.values.map _to_summary, true, 1, s')
      else
        .ok (balances.map _to_summary, false, 0, store)

/-- `api/schemas.TransactionAmount`. -/
structure TransactionAmount where
  value : Option ℚ := Option.none
  currency : Option String := Option.none

/-- `api/schemas.TransactionRecord`. -/
structure TransactionRecord where
  reference : Option String
  booking_date : Option PyDate
  valuta_date : Option PyDate
  remittance_info : Option String
  transaction_type : Option String
  amount : TransactionAmount

/-- `routers/transactions._to_amount`. -/
def _to_amount (transaction : AccountTransaction) : TransactionAmount :=
  match transaction.amount with
  | some amount =>
    match amount.value with
    | some d => { value := some (decToRat d), currency := amount.unit }
    | Option.none => {}
  | Option.none => {}

/-- `routers/transactions._parse_date` on the `Optional[DateString]`
field `bookingDate`: a `DateString` has a `date` attribute, which is
returned as is. -/
def routerParseDateOfDateString (value : Option DateString) : Option PyDate :=
  match value with
  | Option.none => Option.none
  | some ds => ds.date

/-- `routers/transactions._parse_date` on the `Optional[str]` field
`valutaDate`: `date.fromisoformat(str(value))`, with `ValueError`
caught to `None`. -/
def routerParseDateOfStr (value : Option String) : Option PyDate :=
  match value with
  | Option.none => Option.none
  | some s => parseIsoDate s

/-- `routers/transactions._to_record`. -/
def _to_record (transaction : AccountTransaction) : TransactionRecord :=
  { reference := transaction.reference
    booking_date := routerParseDateOfDateString transaction.bookingDate
    valuta_date := routerParseDateOfStr transaction.valutaDate
    remittance_info := transaction.remittanceInfo
    transaction_type := match transaction.transactionType with
      | some e => e.text
      | Option.none => Option.none
    amount := _to_amount transaction }

/-- `routers/transactions._coerce_transaction` on a cached `raw` payload
(a decoded JSON value, not an `AccountTransaction` instance). -/
def _coerce_transaction (raw : PyValue) : Except String AccountTransaction :=
  AccountTransaction.model_validate raw

/-- `routers/transactions._map_transactions` on the cached payloads. -/
def _map_transactions (cached : List PyValue) : Except String (List TransactionRecord) :=
  cached.mapM (fun v => (_coerce_transaction v).map _to_record)

/-- `GET /accounts/.../transactions` (`routers/transactions.list_transactions`)
with its `refresh` query flag; same shape as `route_list_balances`. -/
def route_list_transactions (refresh : Bool) (account_id : String) (store : TxStore)
    (fetched : ListResourceAccountTransaction) (now : Nat) :
    Except String (List TransactionRecord × Bool × Nat × TxStore) :=
  if refresh then
    match refresh_transactions fetched account_id now store with
    | .error e => .error e
    | .ok (response, s') => .ok (response.values.map _to_record, true, 1, s')
  else
    let cached := list_cached_transactions account_id store
    if cached.isEmpty then
      match refresh_transactions fetched account_id now store with
      | .error e => .error e
      | .ok (response, s') => .ok (response.values.map _to_record, true, 1, s')
    else
      match _map_transactions cached with
      | .error e => .error e
      | .ok records => .ok (records, false, 0, store)

/-! ## Helper predicates and list lemmas for the claim theorems -/

/-- Did the fallible computation succeed (no exception raised)? -/
def isOkE : Except ε α → Bool
  | .ok _ => true
  | .error _ => false

/-- Is the value a JSON object (Python dict)? -/
def isDictV : PyValue → Bool
  | .dict _ => true
  | _ => false

/-- Is the value Python `None`? -/
def isNoneV : PyValue → Bool
  | .none => true
  | _ => false

/-- Is the value a `datetime.date` instance? -/
def isDateV : PyValue → Bool
  | .date _ => true
  | _ => false

theorem length_replaceFirst (p : α → Bool) (f : α → α) :
    ∀ l : List α, (replaceFirst p f l).length = l.length := by
  intro l
  induction l with
  | nil => rfl
  | cons a t ih =>
    simp only [replaceFirst]
    split <;> simp [ih]

theorem countP_replaceFirst (p q : α → Bool) (f : α → α) (hf : ∀ a, q (f a) = q a) :
    ∀ l : List α, (replaceFirst p f l).countP q = l.countP q := by
  intro l
  induction l with
  | nil => rfl
  | cons a t ih =>
    simp only [replaceFirst]
    split
    · simp [List.countP_cons, hf]
    · simp [List.countP_cons, ih]

theorem mem_replaceFirst_matching (p : α → Bool) (f : α → α) :
    ∀ l : List α, l.countP p ≤ 1 → ∀ x ∈ replaceFirst p f l, p x →
      ∃ a, a ∈ l ∧ p a ∧ x = f a := by
  intro l
  induction l with
  | nil => intro _ x hx; cases hx
  | cons a t ih =>
    intro hc x hx hpx
    simp only [replaceFirst] at hx
    by_cases hpa : p a
    · rw [if_pos hpa] at hx
      rcases List.mem_cons.mp hx with rfl | hxt
      · exact ⟨a, List.mem_cons_self a t, hpa, rfl⟩
      · exfalso
        have hcc : (a :: t).countP p = t.countP p + 1 := by
          simp [List.countP_cons, hpa]
        have hzero : t.countP p = 0 := by omega
        exact absurd hpx (List.countP_eq_zero.mp hzero x hxt)
    · rw [if_neg hpa] at hx
      rcases List.mem_cons.mp hx with rfl | hxt
      · exact absurd hpx hpa
      · have hcc : (a :: t).countP p = t.countP p := by
          simp [List.countP_cons, hpa]
        have hc' : t.countP p ≤ 1 := by omega
        obtain ⟨b, hb, hpb, rfl⟩ := ih hc' x hxt hpx
        exact ⟨b, List.mem_cons_of_mem a hb, hpb, rfl⟩

theorem find?_append_first (p : α → Bool) :
    ∀ (pre : List α) (r0 : α) (post : List α), (∀ r ∈ pre, p r = false) → p r0 = true →
      (pre ++ r0 :: post).find? p = some r0 := by
  intro pre
  induction pre with
  | nil => intro r0 post _ h; simp [List.find?_cons, h]
  | cons a t ih =>
    intro r0 post hpre h
    have ha : p a = false := hpre a (List.mem_cons_self a t)
    simp only [List.cons_append, List.find?_cons, ha]
    exact ih r0 post (fun r hr => hpre r (List.mem_cons_of_mem a hr)) h

theorem replaceFirst_append_first (p : α → Bool) (f : α → α) :
    ∀ (pre : List α) (r0 : α) (post : List α), (∀ r ∈ pre, p r = false) → p r0 = true →
      replaceFirst p f (pre ++ r0 :: post) = pre ++ f r0 :: post := by
  intro pre
  induction pre with
  | nil => intro r0 post _ h; simp [replaceFirst, h]
  | cons a t ih =>
    intro r0 post hpre h
    have ha : p a = false := hpre a (List.mem_cons_self a t)
    simp only [List.cons_append, replaceFirst, ha, if_neg Bool.false_ne_true]
    rw [List.append_eq, ih r0 post (fun r hr => hpre r (List.mem_cons_of_mem a hr)) h]

theorem countP_le_one_append (p : α → Bool) (pre : List α) (r0 : α) (post : List α)
    (hpre : ∀ r ∈ pre, p r = false) (hr : p r0 = true) (hpost : ∀ r ∈ post, p r = false) :
    (pre ++ r0 :: post).countP p = 1 := by
  rw [List.countP_append, List.countP_cons]
  have h1 : pre.countP p = 0 := List.countP_eq_zero.mpr (fun a ha => by simp [hpre a ha])
  have h2 : post.countP p = 0 := List.countP_eq_zero.mpr (fun a ha => by simp [hpost a ha])
  simp [h1, h2, hr]

/-! ## Claim theorems -/

/-- The amount payload of the round-trip claim. -/
def amountPayload : PyValue :=
  .dict [("value", .str "123.45"), ("unit", .str "EUR")]

/-- C7: decoding `{"value": "123.45", "unit": "EUR"}` to an `AmountValue`
stores the exact decimal 123.45 (coefficient 12345, exponent −2 — never a
binary float), and re-serializing to JSON yields exactly the same payload
with no drift. -/
theorem amount_round_trip_c7 :
    AmountValue.model_validate amountPayload
      = .ok (some { value := some { sign := false, digits := [1, 2, 3, 4, 5], exp := -2 }
                    unit := some "EUR" })
    ∧ AmountValue.model_dump
        { value := some { sign := false, digits := [1, 2, 3, 4, 5], exp := -2 }
          unit := some "EUR" } .json
      = amountPayload :=
  ⟨rfl, rfl⟩

/-- A balance whose primary `accountId` is present but whose nested
`account` record is absent. -/
def c5balance : AccountBalance :=
  { accountId := some "acc-1"
    account := Option.none
    balance := some { value := some { sign := false, digits := [1, 0, 0, 5, 0], exp := -2 }
                      unit := some "EUR" } }

/-- C5 (failing input): for a balance with `accountId="acc-1"` and
`account=None`, the natural-key expression of `upsert_balances` evaluates
to `None` — the `or` binds tighter than the conditional expression — so the
record is skipped and no `Position` row is ever stored, although the claim
(and the sibling helpers `_map_balance`/`_to_summary`, last conjunct)
derive `"acc-1"` from the primary identifier. -/
theorem position_natural_key_c5 :
    c5balance.accountId = some "acc-1"
    ∧ balanceNaturalKey c5balance = Option.none
    ∧ upsert_balances [c5balance] 0 {} = .ok ({} : PosStore)
    ∧ (upsert_balances [c5balance] 0 {}).map list_positions = .ok []
    ∧ (_to_summary c5balance).account_id = some "acc-1" :=
  ⟨rfl, rfl, rfl, rfl, rfl⟩

/-- A transaction from which no `external_id` is derivable: both
`reference` and `endToEndReference` are absent. -/
def c2tx : AccountTransaction := {}

/-- C2 (counterexample): upserting a transaction with no derivable
`external_id` does NOT skip it — a row is inserted (with `external_id`
NULL) and it does appear in the subsequent listing for the account. -/
theorem missing_id_skip_c2_counterexample :
    transactionExternalId c2tx = Option.none
    ∧ (upsert_transactions [c2tx] "acct-1" 7 {}).map
        (fun s => (s.rows.map (fun r => r.external_id), (list_transactions "acct-1" s).length))
      = .ok ([Option.none], 1) :=
  ⟨rfl, rfl⟩

/-- C6 (counterexample): decoding a date-shaped JSON object whose `date`
key is absent, or null, raises instead of yielding a record with the date
`None`. -/
theorem permissive_decode_c6_counterexample :
    isOkE (DateString.model_validate (PyValue.dict [])) = false
    ∧ isOkE (DateString.model_validate (PyValue.dict [("date", PyValue.none)])) = false :=
  ⟨rfl, rfl⟩

/-- C8 (counterexample): the currency decoder does not fail on a raw value
that is neither `None`, an instance, nor a JSON object — it coerces the
scalar `42` to the string `"42"` and succeeds. -/
theorem decoder_reject_c8_counterexample :
    CurrencyString.model_validate (PyValue.int 42) = .ok (some { currency := some "42" }) :=
  rfl

/-- C9: for both cached resources the read operation without forced
refresh returns the current cache when it is non-empty — reporting
`refreshed=false` and performing zero refresh calls — and otherwise
performs exactly one refresh (persisting its result) and reports
`refreshed=true`. -/
theorem cache_fill_c9 :
    (∀ (store : PosStore) (fetched : ListResourceAccountBalance) (now : Nat)
       (cached : List AccountBalance), list_cached_balances store = .ok cached →
      (cached.isEmpty = false →
        route_list_balances false store fetched now = .ok (cached.map _to_summary, false, 0, store))
      ∧ (cached.isEmpty = true →
        route_list_balances false store fetched now =
          (upsert_balances fetched.values now store).map
            (fun s2 => (fetched.values.map _to_summary, true, 1, s2))))
    ∧ (∀ (account_id : String) (store : TxStore) (fetched : ListResourceAccountTransaction)
       (now : Nat),
      ((list_cached_transactions account_id store).isEmpty = false →
        route_list_transactions false account_id store fetched now =
          (_map_transactions (list_cached_transactions account_id store)).map
            (fun records => (records, false, 0, store)))
      ∧ ((list_cached_transactions account_id store).isEmpty = true →
        route_list_transactions false account_id store fetched now =
          (upsert_transactions fetched.values account_id now store).map
            (fun s' => (fetched.values.map _to_record, true, 1, s')))) := by
  constructor
  · intro store fetched now cached hc
    constructor
    · intro he
      simp [route_list_balances, hc, he]
    · intro he
      cases hu : upsert_balances fetched.values now store with
      | error e => simp [route_list_balances, hc, he, refresh_account_balances, hu, Except.map]
      | ok s2 => simp [route_list_balances, hc, he, refresh_account_balances, hu, Except.map]
  · intro account_id store fetched now
    constructor
    · intro he
      cases hm : _map_transactions (list_cached_transactions account_id store) with
      | error e => simp [route_list_transactions, he, hm, Except.map]
      | ok records => simp [route_list_transactions, he, hm, Except.map]
    · intro he
      cases hu : upsert_transactions fetched.values account_id now store with
      | error e => simp [route_list_transactions, he, hu, refresh_transactions, Except.map]
      | ok s' => simp [route_list_transactions, he, hu, refresh_transactions, Except.map]

/-- The final outcome of the bounded attempt sequence. -/
def finalResponse (cfg : RetryConfig) (script : Nat → HttpResponse) : HttpResponse :=
  (requestLoop cfg script 1 (cfg.max_attempts - 1)).2

/-- C4: the request executor raises `ComdirectAPIError` if and only if the
final attempt's status code is outside the 200–399 range; the raised error
carries that status code and the response body parsed as JSON (or the raw
text when the body is not valid JSON); otherwise the final outcome is
returned unchanged. -/
theorem upstream_error_c4 (cfg : RetryConfig) (script : Nat → HttpResponse)
    (hmax : 1 ≤ cfg.max_attempts) :
    ((∃ e, (_request cfg script).2 = .error e) ↔
        ¬(200 ≤ (finalResponse cfg script).status_code
          ∧ (finalResponse cfg script).status_code < 400))
    ∧ (∀ e, (_request cfg script).2 = .error e →
        e.status_code = (finalResponse cfg script).status_code
        ∧ e.response = (match (finalResponse cfg script).json_body with
            | some j => ErrorPayload.json j
            | Option.none => ErrorPayload.text (finalResponse cfg script).text))
    ∧ (200 ≤ (finalResponse cfg script).status_code
        ∧ (finalResponse cfg script).status_code < 400 →
        (_request cfg script).2 = .ok (finalResponse cfg script)) := by
  by_cases hok : responseOk ((requestLoop cfg script 1 (cfg.max_attempts - 1)).2)
  · have hreq : (_request cfg script).2 = .ok (finalResponse cfg script) := by
      simp only [_request]
      rw [if_pos hok]
      rfl
    have hprop : 200 ≤ (finalResponse cfg script).status_code
        ∧ (finalResponse cfg script).status_code < 400 := by
      simpa [responseOk, finalResponse] using hok
    refine ⟨?_, ?_, ?_⟩
    · constructor
      · rintro ⟨e, he⟩
        rw [hreq] at he
        cases he
      · intro hn
        exact absurd hprop hn
    · intro e he
      rw [hreq] at he
      cases he
    · intro _
      exact hreq
  · have hreq : (_request cfg script).2 = .error (_build_error (finalResponse cfg script)) := by
      simp only [_request]
      rw [if_neg hok]
      rfl
    have hprop : ¬(200 ≤ (finalResponse cfg script).status_code
        ∧ (finalResponse cfg script).status_code < 400) := by
      simpa [responseOk, finalResponse] using hok
    refine ⟨?_, ?_, ?_⟩
    · exact ⟨fun _ => hprop, fun _ => ⟨_, hreq⟩⟩
    · intro e he
      rw [hreq] at he
      cases he
      exact ⟨rfl, rfl⟩
    · intro h
      exact absurd h hprop

/-- Witness for C4 at a concrete input: a session scripted to return 404
with a JSON body on every attempt. -/
def notFoundScript : Nat → HttpResponse := fun _ =>
  { status_code := 404, json_body := some (.dict [("error", .str "missing")]) }

/-- C4 witness: the theorem applied to the default config and the scripted
404 session. -/
theorem upstream_error_c4_witness :
    1 ≤ ({} : RetryConfig).max_attempts
    ∧ ((∃ e, (_request {} notFoundScript).2 = .error e) ↔
        ¬(200 ≤ (finalResponse {} notFoundScript).status_code
          ∧ (finalResponse {} notFoundScript).status_code < 400)) :=
  ⟨by decide, (upstream_error_c4 {} notFoundScript (by decide)).1⟩

/-- The retry loop sleeps at most `remaining` times. -/
theorem requestLoop_length_le (cfg : RetryConfig) (script : Nat → HttpResponse) :
    ∀ rem attempt, (requestLoop cfg script attempt rem).1.length ≤ rem := by
  intro rem
  induction rem with
  | zero => intro attempt; simp [requestLoop]
  | succ k ih =>
    intro attempt
    simp only [requestLoop]
    split
    · simpa using ih (attempt + 1)
    · simp

/-- The final outcome of the loop is the response of the last attempt
issued: the script entry at index `attempt - 1 + number-of-sleeps`. -/
theorem requestLoop_final (cfg : RetryConfig) (script : Nat → HttpResponse) :
    ∀ rem attempt, 1 ≤ attempt →
      (requestLoop cfg script attempt rem).2
        = script (attempt - 1 + (requestLoop cfg script attempt rem).1.length) := by
  intro rem
  induction rem with
  | zero => intro attempt _; simp [requestLoop]
  | succ k ih =>
    intro attempt h
    simp only [requestLoop]
    by_cases hr : _should_retry cfg (script (attempt - 1))
    · simp only [hr, if_true, List.length_cons]
      rw [ih (attempt + 1) (by omega)]
      congr 1
      omega
    · simp [hr]

/-- Every sleep in the trace is the `_calculate_delay` of the retryable
response that preceded it: sleep `i` (0-based from the loop entry) belongs
to the attempt that consumed script entry `attempt - 1 + i`. -/
theorem requestLoop_sleep_at (cfg : RetryConfig) (script : Nat → HttpResponse) :
    ∀ rem attempt, 1 ≤ attempt → ∀ i x,
      (requestLoop cfg script attempt rem).1.get? i = some x →
      x = _calculate_delay cfg (script (attempt - 1 + i)) (attempt + i)
      ∧ _should_retry cfg (script (attempt - 1 + i)) = true := by
  intro rem
  induction rem with
  | zero =>
    intro attempt _ i x hx
    simp [requestLoop] at hx
  | succ k ih =>
    intro attempt h i x hx
    by_cases hr : _should_retry cfg (script (attempt - 1))
    · have heq : requestLoop cfg script attempt (k + 1)
          = (_calculate_delay cfg (script (attempt - 1)) attempt
              :: (requestLoop cfg script (attempt + 1) k).1,
             (requestLoop cfg script (attempt + 1) k).2) := by
        simp [requestLoop, hr]
      rw [heq] at hx
      cases i with
      | zero =>
        simp only [List.get?_cons_zero, Option.some.injEq] at hx
        subst hx
        exact ⟨by simp, by simpa using hr⟩
      | succ j =>
        simp only [List.get?_cons_succ] at hx
        have hrec := ih (attempt + 1) (by omega) j x hx
        rw [show attempt - 1 + (j + 1) = attempt + 1 - 1 + j from by omega,
            show attempt + (j + 1) = attempt + 1 + j from by omega]
        exact hrec
    · have heq : requestLoop cfg script attempt (k + 1) = ([], script (attempt - 1)) := by
        simp [requestLoop, hr]
      rw [heq] at hx
      simp at hx

/-- `_calculate_delay` on a 429 whose `Retry-After` parses as a number is
exactly that number of seconds. -/
theorem calculate_delay_server_directed (cfg : RetryConfig) (r : HttpResponse) (a : Nat)
    (h429 : r.status_code = 429) (q : ℚ) (hq : r.retry_after.bind parseFloat = some q) :
    _calculate_delay cfg r a = q := by
  cases hra : r.retry_after with
  | none => rw [hra] at hq; cases hq
  | some ra =>
    rw [hra] at hq
    simp only [Option.some_bind] at hq
    simp [_calculate_delay, h429, hra, hq]

/-- `_calculate_delay` falls back to `backoff_factor * 2 ** (attempt - 1)`
whenever the response is not a 429, has no `Retry-After`, or its
`Retry-After` does not parse as a number. -/
theorem calculate_delay_backoff (cfg : RetryConfig) (r : HttpResponse) (a : Nat)
    (h : r.status_code ≠ 429 ∨ r.retry_after.bind parseFloat = Option.none) :
    _calculate_delay cfg r a = cfg.backoff_factor * (2 : ℚ) ^ (a - 1) := by
  rcases h with h | h
  · simp [_calculate_delay, h]
  · cases hra : r.retry_after with
    | none =>
      by_cases h429 : r.status_code = 429 <;> simp [_calculate_delay, hra, h429]
    | some ra =>
      rw [hra] at h
      simp only [Option.some_bind] at h
      by_cases h429 : r.status_code = 429 <;> simp [_calculate_delay, hra, h429, h]

/-- Scripted session for C1's first scenario: a 429 with `Retry-After: 1`,
then a 200. -/
def retryScriptA : Nat → HttpResponse := fun i =>
  if i = 0 then
    { status_code := 429, retry_after := some "1"
      json_body := some (.dict [("message", .str "slow down")]) }
  else { status_code := 200, json_body := some (.dict [("values", .list [])]) }

/-- The retry configuration of C1's second scenario. -/
def retryCfgB : RetryConfig := { max_attempts := 3, backoff_factor := 1 / 2 }

/-- Scripted session for C1's second scenario: 500 on every attempt. -/
def retryScriptB : Nat → HttpResponse := fun _ =>
  { status_code := 500, json_body := some (.dict [("error", .str "fail")]) }

/-- C1: for every scripted response sequence and every config with
`max_attempts ≥ 1`: the executor never sleeps after the final attempt
(fewer sleeps than attempts allowed), the final outcome is the response
following the last sleep, and the `i`-th sleep is exactly the parsed
`Retry-After` of a 429 carrying one, and `backoff_factor * 2 ** i`
otherwise (including a 429 whose header does not parse).  Concretely:
`[429 Retry-After 1, 200]` sleeps exactly `[1.0]` and returns the 200
outcome, and `[500, 500, 500]` with `max_attempts=3, backoff_factor=0.5`
sleeps `[0.5, 1.0]` and fails with the upstream error carrying
`status_code=500`. -/
theorem retry_determinism_c1 (cfg : RetryConfig) (script : Nat → HttpResponse)
    (hmax : 1 ≤ cfg.max_attempts) :
    (_request cfg script).1.length < cfg.max_attempts
    ∧ finalResponse cfg script = script ((_request cfg script).1.length)
    ∧ (∀ i (hi : i < (_request cfg script).1.length),
        _should_retry cfg (script i) = true
        ∧ ((script i).status_code = 429 → ∀ q,
            ((script i).retry_after.bind parseFloat) = some q →
            (_request cfg script).1.get ⟨i, hi⟩ = q)
        ∧ (((script i).status_code ≠ 429 ∨ ((script i).retry_after.bind parseFloat) = Option.none) →
            (_request cfg script).1.get ⟨i, hi⟩ = cfg.backoff_factor * (2 : ℚ) ^ i))
    ∧ (_request {} retryScriptA).1 = [1]
    ∧ (_request {} retryScriptA).2 = .ok (retryScriptA 1)
    ∧ (_request retryCfgB retryScriptB).1 = [1 / 2, 1]
    ∧ (_request retryCfgB retryScriptB).2
        = .error { message := "HTTP 500 error calling comdirect API"
                   status_code := 500
                   response := .json (.dict [("error", .str "fail")]) } := by
  have hlen : (_request cfg script).1 = (requestLoop cfg script 1 (cfg.max_attempts - 1)).1 := rfl
  refine ⟨?_, ?_, ?_, ?_, ?_, ?_, ?_⟩
  · have := requestLoop_length_le cfg script (cfg.max_attempts - 1) 1
    rw [hlen]
    omega
  · have := requestLoop_final cfg script (cfg.max_attempts - 1) 1 (by omega)
    simpa [finalResponse, hlen] using this
  · intro i hi
    have hi' : i < (requestLoop cfg script 1 (cfg.max_attempts - 1)).1.length := by
      simpa [hlen] using hi
    have hx : (requestLoop cfg script 1 (cfg.max_attempts - 1)).1.get? i
        = some ((_request cfg script).1.get ⟨i, hi⟩) := by
      rw [List.get?_eq_get hi']
      rfl
    have hg := requestLoop_sleep_at cfg script (cfg.max_attempts - 1) 1 (by omega) i
      ((_request cfg script).1.get ⟨i, hi⟩) hx
    have hz : (1 : Nat) - 1 + i = i := by omega
    rw [hz] at hg
    refine ⟨hg.2, ?_, ?_⟩
    · intro h429 q hq
      have hd := calculate_delay_server_directed cfg (script i) (1 + i) h429 q hq
      rw [← hd]
      exact hg.1
    · intro h
      have hd := calculate_delay_backoff cfg (script i) (1 + i) h
      have he : (1 : Nat) + i - 1 = i := by omega
      rw [he] at hd
      rw [← hd]
      exact hg.1
  · simp [_request, requestLoop, retryScriptA, _should_retry, _calculate_delay, parseFloat,
      decParse, decParseExp, decParseExpDigits, decParseExpNat, decToRat, digitsVal,
      isDigitCh, digitVal, normalizeDigits, pyStr]
  · simp [_request, requestLoop, retryScriptA, _should_retry, responseOk]
  · simp [_request, requestLoop, retryScriptB, retryCfgB, _should_retry, _calculate_delay]
  · have : (_request retryCfgB retryScriptB).2 = .error (_build_error (retryScriptB 2)) := by
      simp [_request, requestLoop, retryScriptB, retryCfgB, _should_retry, responseOk]
    rw [this]
    rfl

/-- C1 witness: the theorem applied to the default config and the
429-then-200 script. -/
theorem retry_determinism_c1_witness :
    1 ≤ ({} : RetryConfig).max_attempts
    ∧ (_request {} retryScriptA).1.length < ({} : RetryConfig).max_attempts :=
  ⟨by decide, (retry_determinism_c1 {} retryScriptA (by decide)).1⟩

/-- The row created by `session.add` for a transaction that found no
existing row; `nid` is the autoincrement id it receives. -/
def insertedRow (t : AccountTransaction) (account_id : String) (now : Nat) (nid : Nat)
    (bd : Option PyDate) : TransactionRow :=
  { id := nid
    external_id := transactionExternalId t
    account_id := some account_id
    booking_date := bd
    amount := transactionAmountValue t
    currency := transactionCurrency t
    raw := t.model_dump .python
    created_at := now
    updated_at := now }

/-- The in-place overwrite applied to a found row. -/
def updateRow (t : AccountTransaction) (now : Nat) (bd : Option PyDate)
    (r : TransactionRow) : TransactionRow :=
  { r with raw := t.model_dump .python
           amount := transactionAmountValue t
           currency := transactionCurrency t
           booking_date := bd
           updated_at := now }

/-- Characterization of the per-record loop body when the date raises. -/
theorem upsertOne_eq_error (account_id : String) (now : Nat) (t : AccountTransaction)
    (sess : TxSession) (e : String) (hbd : _parse_date t.bookingDate = .error e) :
    upsertOneTransaction account_id now sess t = .error e := by
  simp [upsertOneTransaction, hbd]

/-- Characterization of the per-record loop body when no existing row is
found: a fresh pending row is added and the id counter advances; the
committed rows are untouched. -/
theorem upsertOne_eq_insert (account_id : String) (now : Nat) (t : AccountTransaction)
    (sess : TxSession) (bd : Option PyDate) (hbd : _parse_date t.bookingDate = .ok bd)
    (hex : (if pyTruthyStr (transactionExternalId t) then
        sess.rows.find? (fun r => r.external_id == transactionExternalId t)
      else Option.none) = Option.none) :
    upsertOneTransaction account_id now sess t
      = .ok (TxSession.mk sess.rows
          (sess.pending ++ [insertedRow t account_id now sess.nextId bd])
          (sess.nextId + 1)) := by
  simp [upsertOneTransaction, hbd, hex, insertedRow]

/-- Characterization of the per-record loop body when a committed row is
found: the first matching committed row is overwritten in place. -/
theorem upsertOne_eq_update (account_id : String) (now : Nat) (t : AccountTransaction)
    (sess : TxSession) (bd : Option PyDate) (r0 : TransactionRow)
    (hbd : _parse_date t.bookingDate = .ok bd)
    (hex : (if pyTruthyStr (transactionExternalId t) then
        sess.rows.find? (fun r => r.external_id == transactionExternalId t)
      else Option.none) = some r0) :
    upsertOneTransaction account_id now sess t
      = .ok (TxSession.mk (replaceFirst (fun r => r.external_id == transactionExternalId t)
          (updateRow t now bd) sess.rows) sess.pending sess.nextId) := by
  simp [upsertOneTransaction, hbd, hex]
  rfl

/-- Unfolding `upsert_transactions` into its loop and commit. -/
theorem upsert_transactions_eq (transactions : List AccountTransaction) (account_id : String)
    (now : Nat) (s : TxStore) :
    upsert_transactions transactions account_id now s
      = match transactions.foldlM (fun sess t => upsertOneTransaction account_id now sess t)
          (TxSession.mk s.rows [] s.nextId) with
        | .error e => .error e
        | .ok sess => txCommit sess := rfl

/-- A one-record batch is the per-record body in a fresh session followed
by the commit. -/
theorem upsert_transactions_single (account_id : String) (now : Nat)
    (t : AccountTransaction) (s : TxStore) :
    upsert_transactions [t] account_id now s
      = match upsertOneTransaction account_id now (TxSession.mk s.rows [] s.nextId) t with
        | .error e => .error e
        | .ok sess => txCommit sess := by
  cases h : upsertOneTransaction account_id now (TxSession.mk s.rows [] s.nextId) t <;>
    simp [upsert_transactions, List.foldlM, h]

/-- A commit with a violated constraint raises the `IntegrityError`. -/
theorem txCommit_eq_of_true (sess : TxSession)
    (h : txFlushViolation sess.rows sess.pending = true) :
    txCommit sess
      = .error "IntegrityError: UNIQUE constraint failed: transactions.external_id" := by
  simp [txCommit, h]

/-- A commit with no violation appends the flushed inserts. -/
theorem txCommit_eq_of_false (sess : TxSession)
    (h : txFlushViolation sess.rows sess.pending = false) :
    txCommit sess = .ok (TxStore.mk (sess.rows ++ sess.pending) sess.nextId) := by
  simp [txCommit, h]

/-- Committing with no pending inserts cannot violate the constraint. -/
theorem txCommit_no_pending (rows : List TransactionRow) (nid : Nat) :
    txCommit (TxSession.mk rows [] nid) = .ok (TxStore.mk rows nid) := by
  simp [txCommit, txFlushViolation]

/-- Committing a single pending insert succeeds when its key is NULL or
occurs at most once in the resulting table. -/
theorem txCommit_single (rows : List TransactionRow) (nid : Nat) (r : TransactionRow)
    (h : r.external_id.isSome = false
      ∨ (rows ++ [r]).countP (fun r2 => r2.external_id == r.external_id) < 2) :
    txCommit (TxSession.mk rows [r] nid) = .ok (TxStore.mk (rows ++ [r]) nid) := by
  have hv : txFlushViolation rows [r] = false := by
    rcases h with h | h
    · simp [txFlushViolation, h]
    · have hd : decide (2 ≤ (rows ++ [r]).countP
          (fun r2 => r2.external_id == r.external_id)) = false :=
        decide_eq_false (Nat.not_le.mpr h)
      simp only [txFlushViolation, List.any_cons, List.any_nil, Bool.or_false]
      rw [hd, Bool.and_false]
  simp [txCommit, hv]

/-- A successful flush bounds the multiplicity of every pending non-NULL
key in the resulting table. -/
theorem txFlushViolation_false_count (rows pending : List TransactionRow)
    (h : txFlushViolation rows pending = false) :
    ∀ r ∈ pending, r.external_id.isSome = true →
      (rows ++ pending).countP (fun r2 => r2.external_id == r.external_id) < 2 := by
  intro r hr hsome
  by_contra hc
  rw [Nat.not_lt] at hc
  have htrue : txFlushViolation rows pending = true := by
    rw [txFlushViolation, List.any_eq_true]
    refine ⟨r, hr, ?_⟩
    simp only [hsome, Bool.true_and, decide_eq_true_eq]
    exact hc
  rw [h] at htrue
  cases htrue

/-- Committing positions with no pending inserts cannot violate the
constraint. -/
theorem posCommit_no_pending (rows : List PositionRow) (nid : Nat) :
    posCommit (PosSession.mk rows [] nid) = .ok (PosStore.mk rows nid) := by
  simp [posCommit, posFlushViolation]

/-- Characterization of the per-balance loop body when a committed row is
found: the first matching committed row is overwritten in place. -/
theorem upsertOneBalance_eq_update (now : Nat) (b : AccountBalance) (sess : PosSession)
    (r0 : PositionRow) (htr : pyTruthyStr (balanceNaturalKey b) = true)
    (hfind : sess.rows.find? (fun r => r.account_id == balanceNaturalKey b) = some r0) :
    upsertOneBalance now sess b
      = PosSession.mk (replaceFirst (fun r => r.account_id == balanceNaturalKey b)
          (fun r => { r with balance_amount := _extract_amount b
                             currency := _extract_currency b
                             raw := b.model_dump .python
                             updated_at := now }) sess.rows) sess.pending sess.nextId := by
  simp [upsertOneBalance, htr, hfind]

/-- Invariant of the transactions table: at most one row per non-empty
`external_id`. -/
def TxInvariant (s : TxStore) : Prop :=
  ∀ eid : String, eid ≠ "" → s.rows.countP (fun r => r.external_id == some eid) ≤ 1

/-- Bind on a raised exception propagates the exception. -/
theorem except_error_bind (e : ε) (f : α → Except ε β) :
    (Except.error e >>= f) = Except.error e := rfl

/-- Bind on a successful computation continues with its value. -/
theorem except_ok_bind (a : α) (f : α → Except ε β) :
    (Except.ok a >>= f) = f a := rfl

/-- One loop step never changes how many committed rows carry a given
`external_id`: an update preserves the field and an insert only grows the
pending list. -/
theorem upsertOne_rows_countP (account_id : String) (now : Nat) (t : AccountTransaction)
    (sess sess2 : TxSession)
    (h : upsertOneTransaction account_id now sess t = .ok sess2) (eid : String) :
    sess2.rows.countP (fun r => r.external_id == some eid)
      = sess.rows.countP (fun r => r.external_id == some eid) := by
  cases hbd : _parse_date t.bookingDate with
  | error e =>
    rw [upsertOne_eq_error account_id now t sess e hbd] at h
    cases h
  | ok bd =>
    cases hex : (if pyTruthyStr (transactionExternalId t) then
        sess.rows.find? (fun r => r.external_id == transactionExternalId t)
      else Option.none) with
    | some r0 =>
      rw [upsertOne_eq_update account_id now t sess bd r0 hbd hex] at h
      cases h
      exact countP_replaceFirst (fun r => r.external_id == transactionExternalId t)
        (fun r => r.external_id == some eid) (updateRow t now bd) (fun a => rfl) sess.rows
    | none =>
      rw [upsertOne_eq_insert account_id now t sess bd hbd hex] at h
      cases h
      rfl

/-- The whole loop never changes how many committed rows carry a given
`external_id`. -/
theorem upsert_loop_rows_countP (account_id : String) (now : Nat) :
    ∀ (transactions : List AccountTransaction) (sess sess2 : TxSession),
      transactions.foldlM (fun se t => upsertOneTransaction account_id now se t) sess
        = .ok sess2 →
      ∀ eid : String, sess2.rows.countP (fun r => r.external_id == some eid)
          = sess.rows.countP (fun r => r.external_id == some eid) := by
  intro ts
  induction ts with
  | nil =>
    intro sess sess2 h eid
    have h2 : Except.ok sess = Except.ok sess2 := h
    injection h2 with h3
    rw [← h3]
  | cons t ts ih =>
    intro sess sess2 h eid
    have hsplit : upsertOneTransaction account_id now sess t >>=
        (fun se => ts.foldlM (fun se t => upsertOneTransaction account_id now se t) se)
        = .ok sess2 := h
    cases h1 : upsertOneTransaction account_id now sess t with
    | error e =>
      rw [h1, except_error_bind] at hsplit
      cases hsplit
    | ok sess1 =>
      rw [h1, except_ok_bind] at hsplit
      rw [ih sess1 sess2 hsplit eid, upsertOne_rows_countP account_id now t sess sess1 h1 eid]

/-- A whole `upsert_transactions` call preserves the invariant: updates
never touch `external_id`, a committed-colliding insert is impossible (the
lookup ran against the committed rows), and a pending–pending collision on
a non-NULL key makes the commit fail — `session_scope` then rolls the call
back, so no store with a violation is ever produced. -/
theorem upsert_transactions_invariant (transactions : List AccountTransaction)
    (account_id : String) (now : Nat) (s s2 : TxStore) (hinv : TxInvariant s)
    (h : upsert_transactions transactions account_id now s = .ok s2) : TxInvariant s2 := by
  rw [upsert_transactions_eq] at h
  cases hf : transactions.foldlM (fun sess t => upsertOneTransaction account_id now sess t)
      (TxSession.mk s.rows [] s.nextId) with
  | error e =>
    rw [hf] at h
    cases h
  | ok sess =>
    rw [hf] at h
    have hcommit : txCommit sess = .ok s2 := h
    cases hviol : txFlushViolation sess.rows sess.pending with
    | true =>
      rw [txCommit_eq_of_true sess hviol] at hcommit
      cases hcommit
    | false =>
      rw [txCommit_eq_of_false sess hviol] at hcommit
      injection hcommit with h2
      rw [← h2]
      intro eid hne
      show (sess.rows ++ sess.pending).countP (fun r => r.external_id == some eid) ≤ 1
      have hrows : sess.rows.countP (fun r => r.external_id == some eid)
          = s.rows.countP (fun r => r.external_id == some eid) := by
        have := upsert_loop_rows_countP account_id now transactions
          (TxSession.mk s.rows [] s.nextId) sess hf eid
        simpa using this
      rw [List.countP_append]
      by_cases hp : sess.pending.countP (fun r => r.external_id == some eid) = 0
      · rw [hp, hrows]
        have := hinv eid hne
        omega
      · have hpos : 0 < sess.pending.countP (fun r => r.external_id == some eid) :=
          Nat.pos_of_ne_zero hp
        rw [List.countP_pos_iff] at hpos
        obtain ⟨r, hrmem, hpr⟩ := hpos
        have hrid : r.external_id = some eid := by simpa using hpr
        have hsome : r.external_id.isSome = true := by rw [hrid]; rfl
        have hcnt := txFlushViolation_false_count sess.rows sess.pending hviol r hrmem hsome
        rw [hrid, List.countP_append] at hcnt
        omega

/-- After upserting a record with a derivable (truthy) `external_id` into
an invariant-satisfying store, exactly one row carries that id and its
`raw` payload is the dump of the record just applied. -/
theorem upsert_last_write (t : AccountTransaction) (account_id : String) (now : Nat)
    (s s2 : TxStore) (eid : String) (hinv : TxInvariant s)
    (hid : transactionExternalId t = some eid) (hne : eid ≠ "")
    (h : upsert_transactions [t] account_id now s = .ok s2) :
    s2.rows.countP (fun r => r.external_id == some eid) = 1
    ∧ ∀ r ∈ s2.rows, r.external_id = some eid → r.raw = t.model_dump .python := by
  rw [upsert_transactions_single] at h
  have htr : pyTruthyStr (transactionExternalId t) = true := by
    simp [hid, pyTruthyStr, hne]
  cases hbd : _parse_date t.bookingDate with
  | error e =>
    rw [upsertOne_eq_error account_id now t (TxSession.mk s.rows [] s.nextId) e hbd] at h
    cases h
  | ok bd =>
    cases hfind : s.rows.find? (fun r => r.external_id == transactionExternalId t) with
    | none =>
      have hex : (if pyTruthyStr (transactionExternalId t) then
          (TxSession.mk s.rows [] s.nextId).rows.find?
            (fun r => r.external_id == transactionExternalId t)
        else Option.none) = Option.none := by
        rw [if_pos htr]
        exact hfind
      rw [upsertOne_eq_insert account_id now t (TxSession.mk s.rows [] s.nextId) bd hbd hex] at h
      have hzero : s.rows.countP (fun r => r.external_id == some eid) = 0 := by
        rw [List.countP_eq_zero]
        intro a ha
        have := List.find?_eq_none.mp hfind a ha
        simpa [hid] using this
      have hrow : (insertedRow t account_id now s.nextId bd).external_id = some eid := by
        simp [insertedRow, hid]
      have hc1 : (s.rows ++ [insertedRow t account_id now s.nextId bd]).countP
          (fun r2 => r2.external_id
            == (insertedRow t account_id now s.nextId bd).external_id) < 2 := by
        rw [hrow, List.countP_append, hzero]
        simp [List.countP_cons, hrow]
      have hcommit : txCommit (TxSession.mk s.rows [insertedRow t account_id now s.nextId bd]
          (s.nextId + 1)) = .ok s2 := h
      rw [txCommit_single s.rows (s.nextId + 1) (insertedRow t account_id now s.nextId bd)
        (Or.inr hc1)] at hcommit
      injection hcommit with h2
      rw [← h2]
      refine ⟨?_, ?_⟩
      · show (s.rows ++ [insertedRow t account_id now s.nextId bd]).countP
            (fun r => r.external_id == some eid) = 1
        rw [List.countP_append, hzero]
        simp [List.countP_cons, hrow]
      · intro r hr hrid
        have hr2 : r ∈ s.rows ++ [insertedRow t account_id now s.nextId bd] := hr
        rcases List.mem_append.mp hr2 with hrs | hrnew
        · exfalso
          have := List.countP_eq_zero.mp hzero r hrs
          simp [hrid] at this
        · have heq : r = insertedRow t account_id now s.nextId bd := by simpa using hrnew
          rw [heq]
          rfl
    | some r0 =>
      have hex : (if pyTruthyStr (transactionExternalId t) then
          (TxSession.mk s.rows [] s.nextId).rows.find?
            (fun r => r.external_id == transactionExternalId t)
        else Option.none) = some r0 := by
        rw [if_pos htr]
        exact hfind
      rw [upsertOne_eq_update account_id now t (TxSession.mk s.rows [] s.nextId) bd r0 hbd hex] at h
      have hcommit : txCommit (TxSession.mk (replaceFirst
          (fun r => r.external_id == transactionExternalId t) (updateRow t now bd) s.rows)
          [] s.nextId) = .ok s2 := h
      rw [txCommit_no_pending] at hcommit
      injection hcommit with h2
      rw [← h2]
      have hle : s.rows.countP (fun r => r.external_id == some eid) ≤ 1 := hinv eid hne
      have hpos : 0 < s.rows.countP (fun r => r.external_id == some eid) := by
        rw [List.countP_pos_iff]
        refine ⟨r0, List.mem_of_find?_eq_some hfind, ?_⟩
        have := List.find?_some hfind
        simpa [hid] using this
      refine ⟨?_, ?_⟩
      · show (replaceFirst (fun r => r.external_id == transactionExternalId t)
            (updateRow t now bd) s.rows).countP (fun r => r.external_id == some eid) = 1
        rw [countP_replaceFirst (fun r => r.external_id == transactionExternalId t)
          (fun r => r.external_id == some eid) (updateRow t now bd) (fun a => rfl) s.rows]
        omega
      · intro r hr hrid
        have hr2 : r ∈ replaceFirst (fun r => r.external_id == transactionExternalId t)
            (updateRow t now bd) s.rows := hr
        have hcnt : s.rows.countP (fun r => r.external_id == transactionExternalId t) ≤ 1 := by
          rw [hid]
          exact hle
        have := mem_replaceFirst_matching (fun r => r.external_id == transactionExternalId t)
          (updateRow t now bd) s.rows hcnt r hr2 (by simp [hid, hrid])
        obtain ⟨a, _, _, rfl⟩ := this
        rfl

/-- C3: at most one cached row ever exists per derivable `external_id` —
any `upsert_transactions` call that returns (a failed commit rolls back
and leaves the store unchanged) preserves the invariant, so any sequence
of calls does — and after upserting a record with a derivable id the store
holds exactly one row with that id whose stored raw payload equals the
dump of the last-applied record. -/
theorem idempotent_upsert_c3 :
    (∀ (transactions : List AccountTransaction) (account_id : String) (now : Nat)
       (s s2 : TxStore), TxInvariant s →
       upsert_transactions transactions account_id now s = .ok s2 → TxInvariant s2)
    ∧ (∀ (t : AccountTransaction) (account_id : String) (now : Nat) (s s2 : TxStore)
       (eid : String), TxInvariant s → transactionExternalId t = some eid → eid ≠ "" →
       upsert_transactions [t] account_id now s = .ok s2 →
       s2.rows.countP (fun r => r.external_id == some eid) = 1
       ∧ ∀ r ∈ s2.rows, r.external_id = some eid → r.raw = t.model_dump .python) :=
  ⟨fun ts acct now s s2 hinv h => upsert_transactions_invariant ts acct now s s2 hinv h,
   fun t acct now s s2 eid hinv hid hne h => upsert_last_write t acct now s s2 eid hinv hid hne h⟩

/-- C2 (amended): a transaction from which no `external_id` is derivable
(reference and endToEndReference both absent) is NOT skipped: the upsert
inserts a fresh row for it with `external_id` NULL — which never collides
with the unique constraint — does not raise because of the missing id, and
the row appears in the subsequent listing for the account.  (The claimed
skip-silently behaviour exists only in the balance repository.) -/
theorem missing_id_skip_c2 (t : AccountTransaction) (account_id : String) (now : Nat)
    (s : TxStore) (bd : Option PyDate)
    (hid : transactionExternalId t = Option.none)
    (hbd : _parse_date t.bookingDate = .ok bd) :
    upsert_transactions [t] account_id now s
      = .ok { rows := s.rows ++ [insertedRow t account_id now s.nextId bd]
              nextId := s.nextId + 1 }
    ∧ ∀ s2, upsert_transactions [t] account_id now s = .ok s2 →
        list_transactions account_id s2
          = list_transactions account_id s ++ [insertedRow t account_id now s.nextId bd] := by
  have hfalse : pyTruthyStr (transactionExternalId t) = false := by
    rw [hid]
    rfl
  have hex : (if pyTruthyStr (transactionExternalId t) then
      (TxSession.mk s.rows [] s.nextId).rows.find?
        (fun r => r.external_id == transactionExternalId t)
    else Option.none) = Option.none := by rw [if_neg (by simp [hfalse])]
  have hsome : (insertedRow t account_id now s.nextId bd).external_id.isSome = false := by
    simp [insertedRow, hid]
  have h1 : upsert_transactions [t] account_id now s
      = .ok { rows := s.rows ++ [insertedRow t account_id now s.nextId bd]
              nextId := s.nextId + 1 } := by
    rw [upsert_transactions_single,
      upsertOne_eq_insert account_id now t (TxSession.mk s.rows [] s.nextId) bd hbd hex]
    exact txCommit_single s.rows (s.nextId + 1) (insertedRow t account_id now s.nextId bd)
      (Or.inl hsome)
  refine ⟨h1, ?_⟩
  intro s2 h2
  rw [h1] at h2
  injection h2 with h3
  rw [← h3]
  simp [list_transactions, List.filter_append, insertedRow]

/-- C10: when an upsert finds an existing cached row for the derived key,
it overwrites only the cached payload, derived amount, derived currency
and derived date/updated-at fields of that row in place (`updateRow` and
the positions' record update carry `id`, `created_at`, `external_id` and
`account_id` over unchanged); all other rows and the id counter are
untouched — the commit flushes no inserts, so it cannot fail — even when
the upsert is invoked with a different scope key (`account_id` is
arbitrary and unused by the update branch). -/
theorem update_frame_c10 :
    (∀ (t : AccountTransaction) (account_id : String) (now : Nat) (s : TxStore) (eid : String)
       (pre post : List TransactionRow) (r0 : TransactionRow) (bd : Option PyDate),
      transactionExternalId t = some eid → eid ≠ "" →
      s.rows = pre ++ r0 :: post →
      (∀ r ∈ pre, (r.external_id == some eid) = false) →
      r0.external_id = some eid →
      _parse_date t.bookingDate = .ok bd →
      upsert_transactions [t] account_id now s
        = .ok (TxStore.mk (pre ++ updateRow t now bd r0 :: post) s.nextId))
    ∧ (∀ (b : AccountBalance) (now : Nat) (s : PosStore) (aid : String)
       (pre post : List PositionRow) (r0 : PositionRow),
      balanceNaturalKey b = some aid → aid ≠ "" →
      s.rows = pre ++ r0 :: post →
      (∀ r ∈ pre, (r.account_id == some aid) = false) →
      r0.account_id = some aid →
      upsert_balances [b] now s
        = .ok (PosStore.mk
            (pre ++ { r0 with balance_amount := _extract_amount b
                              currency := _extract_currency b
                              raw := b.model_dump .python
                              updated_at := now } :: post) s.nextId)) := by
  constructor
  · intro t account_id now s eid pre post r0 bd hid hne hrows hpre hr0 hbd
    have htr : pyTruthyStr (transactionExternalId t) = true := by
      simp [hid, pyTruthyStr, hne]
    have hfind : s.rows.find? (fun r => r.external_id == transactionExternalId t) = some r0 := by
      rw [hrows, hid]
      exact find?_append_first _ pre r0 post hpre (by simp [hr0])
    have hex : (if pyTruthyStr (transactionExternalId t) then
        (TxSession.mk s.rows [] s.nextId).rows.find?
          (fun r => r.external_id == transactionExternalId t)
      else Option.none) = some r0 := by
      rw [if_pos htr]
      exact hfind
    have hrepl : replaceFirst (fun r => r.external_id == transactionExternalId t)
        (updateRow t now bd) s.rows = pre ++ updateRow t now bd r0 :: post := by
      rw [hrows, hid]
      exact replaceFirst_append_first _ (updateRow t now bd) pre r0 post hpre (by simp [hr0])
    rw [upsert_transactions_single,
      upsertOne_eq_update account_id now t (TxSession.mk s.rows [] s.nextId) bd r0 hbd hex]
    show txCommit (TxSession.mk (replaceFirst (fun r => r.external_id == transactionExternalId t)
        (updateRow t now bd) s.rows) [] s.nextId)
      = .ok (TxStore.mk (pre ++ updateRow t now bd r0 :: post) s.nextId)
    rw [txCommit_no_pending, hrepl]
  · intro b now s aid pre post r0 hid hne hrows hpre hr0
    have htr : pyTruthyStr (balanceNaturalKey b) = true := by
      simp [hid, pyTruthyStr, hne]
    have hfind : (PosSession.mk s.rows [] s.nextId).rows.find?
        (fun r => r.account_id == balanceNaturalKey b) = some r0 := by
      show s.rows.find? (fun r => r.account_id == balanceNaturalKey b) = some r0
      rw [hrows, hid]
      exact find?_append_first _ pre r0 post hpre (by simp [hr0])
    have hrepl : replaceFirst (fun r => r.account_id == balanceNaturalKey b)
        (fun r => { r with balance_amount := _extract_amount b
                           currency := _extract_currency b
                           raw := b.model_dump .python
                           updated_at := now }) s.rows
        = pre ++ { r0 with balance_amount := _extract_amount b
                           currency := _extract_currency b
                           raw := b.model_dump .python
                           updated_at := now } :: post := by
      show replaceFirst (fun r => r.account_id == balanceNaturalKey b) _ s.rows = _
      rw [hrows, hid]
      exact replaceFirst_append_first _ _ pre r0 post hpre (by simp [hr0])
    have hone : upsert_balances [b] now s
        = posCommit (upsertOneBalance now (PosSession.mk s.rows [] s.nextId) b) := rfl
    rw [hone, upsertOneBalance_eq_update now b (PosSession.mk s.rows [] s.nextId) r0 htr hfind]
    show posCommit (PosSession.mk (replaceFirst (fun r => r.account_id == balanceNaturalKey b)
        (fun r => { r with balance_amount := _extract_amount b
                           currency := _extract_currency b
                           raw := b.model_dump .python
                           updated_at := now }) s.rows) [] s.nextId)
      = .ok (PosStore.mk (pre ++ { r0 with balance_amount := _extract_amount b
                                           currency := _extract_currency b
                                           raw := b.model_dump .python
                                           updated_at := now } :: post) s.nextId)
    rw [posCommit_no_pending, hrepl]

/-- C2 witness: the amended claim applied to the no-id transaction on an
empty store. -/
theorem missing_id_skip_c2_witness :
    transactionExternalId c2tx = Option.none
    ∧ upsert_transactions [c2tx] "acct-1" 7 {}
        = .ok { rows := [insertedRow c2tx "acct-1" 7 1 Option.none], nextId := 2 } :=
  ⟨rfl, by
    have h := (missing_id_skip_c2 c2tx "acct-1" 7 {} Option.none rfl rfl).1
    simpa using h⟩

/-- A transaction with a derivable reference. -/
def c3tx : AccountTransaction := { reference := some "tx-1" }

/-- C3 witness: the last-write part applied to a concrete record and the
store produced by its own insertion. -/
theorem idempotent_upsert_c3_witness :
    transactionExternalId c3tx = some "tx-1"
    ∧ (TxStore.mk [insertedRow c3tx "a" 0 1 Option.none] 2).rows.countP
        (fun r => r.external_id == some "tx-1") = 1 :=
  ⟨rfl,
   (idempotent_upsert_c3.2 c3tx "a" 0 {} (TxStore.mk [insertedRow c3tx "a" 0 1 Option.none] 2)
      "tx-1" (by intro eid _; simp) rfl (by decide) (by rfl)).1⟩

/-- A transaction updating the row cached under `tx-7`. -/
def c10tx : AccountTransaction :=
  { reference := some "tx-7"
    amount := some { value := some { sign := false, digits := [5], exp := 0 }, unit := some "EUR" } }

/-- The cached row for `tx-7`, created under scope key `acct-A`. -/
def c10row : TransactionRow :=
  { id := 3
    external_id := some "tx-7"
    account_id := some "acct-A"
    booking_date := Option.none
    amount := Option.none
    currency := Option.none
    raw := PyValue.none
    created_at := 11
    updated_at := 11 }

/-- C10 witness: updating `tx-7` under a different scope key leaves the
row's surrogate key, creation time and `account_id` unchanged. -/
theorem update_frame_c10_witness :
    upsert_transactions [c10tx] "acct-B" 99 (TxStore.mk [c10row] 4)
      = .ok (TxStore.mk [updateRow c10tx 99 Option.none c10row] 4)
    ∧ (updateRow c10tx 99 Option.none c10row).account_id = some "acct-A"
    ∧ (updateRow c10tx 99 Option.none c10row).created_at = 11
    ∧ (updateRow c10tx 99 Option.none c10row).id = 3 :=
  ⟨by
    have h := update_frame_c10.1 c10tx "acct-B" 99 (TxStore.mk [c10row] 4) "tx-7" [] []
      c10row Option.none rfl (by decide) rfl (by simp) rfl rfl
    simpa using h,
   rfl, rfl, rfl⟩

/-- A position store with one cached row whose payload re-validates. -/
def c9store : PosStore :=
  { rows := [{ id := 1
               account_id := some "a"
               balance_amount := Option.none
               currency := Option.none
               raw := PyValue.dict [("accountId", PyValue.str "a")]
               updated_at := 0 }]
    nextId := 2 }

/-- C9 witness: a read on a populated cache reports `refreshed=false`,
zero refresh calls, and leaves the store untouched. -/
theorem cache_fill_c9_witness :
    list_cached_balances c9store = .ok [{ accountId := some "a" }]
    ∧ route_list_balances false c9store {} 0
        = .ok ([{ account_id := some "a", amount := Option.none, currency := Option.none }],
               false, 0, c9store) :=
  ⟨rfl, by
    have h := (cache_fill_c9.1 c9store {} 0 [{ accountId := some "a" }] rfl).1 rfl
    simpa using h⟩

/-- C6 (amended): for the transaction record decoder, an optional field
that is absent or null decodes to `None` and absence alone is never an
error (a record-shaped object whose fallible nested fields are all absent
or null decodes successfully, the absent fields all `None`); but the
date-shape decoder is the exception: a date-shaped JSON object whose
`date` key is absent or null raises (`fromisoformat(str(None))`) instead
of yielding a record with the date `None`. -/
theorem permissive_decode_c6 :
    (∀ (es : List (String × PyValue)) (t : AccountTransaction),
      AccountTransaction.model_validate (PyValue.dict es) = .ok t →
      (getKey es "reference" = .none → t.reference = Option.none)
      ∧ (getKey es "bookingStatus" = .none → t.bookingStatus = Option.none)
      ∧ (getKey es "bookingDate" = .none → t.bookingDate = Option.none)
      ∧ (getKey es "amount" = .none → t.amount = Option.none)
      ∧ (getKey es "remitter" = .none → t.remitter = Option.none)
      ∧ (getKey es "deptor" = .none → t.deptor = Option.none)
      ∧ (getKey es "creditor" = .none → t.creditor = Option.none)
      ∧ (getKey es "valutaDate" = .none → t.valutaDate = Option.none)
      ∧ (getKey es "directDebitCreditorId" = .none → t.directDebitCreditorId = Option.none)
      ∧ (getKey es "directDebitMandateId" = .none → t.directDebitMandateId = Option.none)
      ∧ (getKey es "endToEndReference" = .none → t.endToEndReference = Option.none)
      ∧ (getKey es "newTransaction" = .none → t.newTransaction = .none)
      ∧ (getKey es "remittanceInfo" = .none → t.remittanceInfo = Option.none)
      ∧ (getKey es "transactionType" = .none → t.transactionType = Option.none))
    ∧ (∀ es, getKey es "bookingDate" = .none → getKey es "amount" = .none →
        getKey es "remitter" = .none → getKey es "deptor" = .none →
        getKey es "creditor" = .none → getKey es "transactionType" = .none →
        AccountTransaction.model_validate (PyValue.dict es)
          = .ok { reference := _coerce_optional_str (getKey es "reference")
                  bookingStatus := _coerce_optional_str (getKey es "bookingStatus")
                  bookingDate := Option.none
                  amount := Option.none
                  remitter := Option.none
                  deptor := Option.none
                  creditor := Option.none
                  valutaDate := _coerce_optional_str (getKey es "valutaDate")
                  directDebitCreditorId := _coerce_optional_str (getKey es "directDebitCreditorId")
                  directDebitMandateId := _coerce_optional_str (getKey es "directDebitMandateId")
                  endToEndReference := _coerce_optional_str (getKey es "endToEndReference")
                  newTransaction := getKey es "newTransaction"
                  remittanceInfo := _coerce_optional_str (getKey es "remittanceInfo")
                  transactionType := Option.none })
    ∧ (∀ es, getKey es "date" = .none →
        isOkE (DateString.model_validate (PyValue.dict es)) = false) := by
  refine ⟨?_, ?_, ?_⟩
  · intro es t h
    simp only [AccountTransaction.model_validate] at h
    cases h1 : DateString.model_validate (getKey es "bookingDate") with
    | error e => rw [h1, except_error_bind] at h; cases h
    | ok bookingDate =>
    rw [h1, except_ok_bind] at h
    cases h2 : AmountValue.model_validate (getKey es "amount") with
    | error e => rw [h2, except_error_bind] at h; cases h
    | ok amount =>
    rw [h2, except_ok_bind] at h
    cases h3 : AccountInformation.model_validate (getKey es "remitter") with
    | error e => rw [h3, except_error_bind] at h; cases h
    | ok remitter =>
    rw [h3, except_ok_bind] at h
    cases h4 : AccountInformation.model_validate (getKey es "deptor") with
    | error e => rw [h4, except_error_bind] at h; cases h
    | ok deptor =>
    rw [h4, except_ok_bind] at h
    cases h5 : AccountInformation.model_validate (getKey es "creditor") with
    | error e => rw [h5, except_error_bind] at h; cases h
    | ok creditor =>
    rw [h5, except_ok_bind] at h
    cases h6 : EnumText.model_validate (getKey es "transactionType") with
    | error e => rw [h6, except_error_bind] at h; cases h
    | ok transactionType =>
    rw [h6, except_ok_bind] at h
    injection h with hrec
    rw [← hrec]
    refine ⟨?_, ?_, ?_, ?_, ?_, ?_, ?_, ?_, ?_, ?_, ?_, ?_, ?_, ?_⟩
    · intro hk; simp [hk, _coerce_optional_str]
    · intro hk; simp [hk, _coerce_optional_str]
    · intro hk
      rw [hk] at h1
      have h1' : Except.ok (Option.none : Option DateString) = Except.ok bookingDate := h1
      injection h1' with h1x
      simp [← h1x]
    · intro hk
      rw [hk] at h2
      have h2' : Except.ok (Option.none : Option AmountValue) = Except.ok amount := h2
      injection h2' with h2x
      simp [← h2x]
    · intro hk
      rw [hk] at h3
      have h3' : Except.ok (Option.none : Option AccountInformation) = Except.ok remitter := h3
      injection h3' with h3x
      simp [← h3x]
    · intro hk
      rw [hk] at h4
      have h4' : Except.ok (Option.none : Option AccountInformation) = Except.ok deptor := h4
      injection h4' with h4x
      simp [← h4x]
    · intro hk
      rw [hk] at h5
      have h5' : Except.ok (Option.none : Option AccountInformation) = Except.ok creditor := h5
      injection h5' with h5x
      simp [← h5x]
    · intro hk; simp [hk, _coerce_optional_str]
    · intro hk; simp [hk, _coerce_optional_str]
    · intro hk; simp [hk, _coerce_optional_str]
    · intro hk; simp [hk, _coerce_optional_str]
    · intro hk; simp [hk]
    · intro hk; simp [hk, _coerce_optional_str]
    · intro hk
      rw [hk] at h6
      have h6' : Except.ok (Option.none : Option EnumText) = Except.ok transactionType := h6
      injection h6' with h6x
      simp [← h6x]
  · intro es h1 h2 h3 h4 h5 h6
    simp only [AccountTransaction.model_validate, h1, h2, h3, h4, h5, h6]
    rfl
  · intro es h
    have hp : parseIsoDate (pyStr PyValue.none) = Option.none := rfl
    simp [DateString.model_validate, h, hp, isOkE]

/-- C6 witness: the empty JSON object decodes to the all-`None`
transaction record, while the date decoder rejects it. -/
theorem permissive_decode_c6_witness :
    (∃ t, AccountTransaction.model_validate (PyValue.dict []) = .ok t
       ∧ t.reference = Option.none ∧ t.bookingDate = Option.none)
    ∧ isOkE (DateString.model_validate (PyValue.dict [])) = false := by
  constructor
  · have h2 := permissive_decode_c6.2.1 [] rfl rfl rfl rfl rfl rfl
    exact ⟨_, h2, (permissive_decode_c6.1 [] _ h2).1 rfl,
      (permissive_decode_c6.1 [] _ h2).2.2.1 rfl⟩
  · exact permissive_decode_c6.2.2 [] rfl

/-- C8 (amended): for every raw value that is neither `None`, nor already
an instance of the target shape (for the date shape, a `datetime.date`),
nor a JSON object, the amount, enum-text, account-information, paging-info
and aggregated-info decoders fail with an error; the currency decoder is
the exception — it coerces any such value to its string form and succeeds;
and the date decoder accepts exactly the values whose string form parses
as an ISO-8601 date. -/
theorem decoder_reject_c8 (v : PyValue) (hd : isDictV v = false) (hn : isNoneV v = false)
    (hdt : isDateV v = false) :
    isOkE (AmountValue.model_validate v) = false
    ∧ isOkE (EnumText.model_validate v) = false
    ∧ isOkE (AccountInformation.model_validate v) = false
    ∧ isOkE (PagingInfo.model_validate v) = false
    ∧ isOkE (AggregatedInfo.model_validate v) = false
    ∧ CurrencyString.model_validate v = .ok (some { currency := some (pyStr v) })
    ∧ (parseIsoDate (pyStr v) = Option.none → isOkE (DateString.model_validate v) = false)
    ∧ (∀ d, parseIsoDate (pyStr v) = some d →
        DateString.model_validate v = .ok (some { date := some d })) := by
  cases v with
  | none => simp [isNoneV] at hn
  | dict es => simp [isDictV] at hd
  | date d => simp [isDateV] at hdt
  | bool b =>
    refine ⟨rfl, rfl, rfl, rfl, rfl, rfl, ?_, ?_⟩
    · intro hp
      simp [DateString.model_validate, hp, isOkE]
    · intro d hp
      simp [DateString.model_validate, hp]
  | int n =>
    refine ⟨rfl, rfl, rfl, rfl, rfl, rfl, ?_, ?_⟩
    · intro hp
      simp [DateString.model_validate, hp, isOkE]
    · intro d hp
      simp [DateString.model_validate, hp]
  | str s =>
    refine ⟨rfl, rfl, rfl, rfl, rfl, rfl, ?_, ?_⟩
    · intro hp
      simp [DateString.model_validate, hp, isOkE]
    · intro d hp
      simp [DateString.model_validate, hp]
  | decimal dd =>
    refine ⟨rfl, rfl, rfl, rfl, rfl, rfl, ?_, ?_⟩
    · intro hp
      simp [DateString.model_validate, hp, isOkE]
    · intro d hp
      simp [DateString.model_validate, hp]
  | list xs =>
    refine ⟨rfl, rfl, rfl, rfl, rfl, rfl, ?_, ?_⟩
    · intro hp
      simp [DateString.model_validate, hp, isOkE]
    · intro d hp
      simp [DateString.model_validate, hp]

/-- C8 witness: the amended claim applied to the scalar `42`. -/
theorem decoder_reject_c8_witness :
    isDictV (PyValue.int 42) = false
    ∧ isOkE (AmountValue.model_validate (PyValue.int 42)) = false :=
  ⟨rfl, (decoder_reject_c8 (PyValue.int 42) rfl rfl rfl).1⟩
